import Mathlib

set_option maxRecDepth 100000

/-!
Formal model (shallow embedding) of the Phone-Booth repository core:
the prompt template registry with autonomous selection
(backend/app/prompts/registry.py), the generation endpoints
(backend/app/api.py), the llama.cpp engine wrapper
(backend/app/llm/llama_cpp_engine.py) and the booth-side resilient
client (frontend/booth/net.py), together with the session store and
history truncation that api.py imports.

Python floats are modelled exactly by rational numbers, Python strings
by Lean strings (all texts involved are ASCII apart from a few
punctuation marks that no operation inspects), and the standard-library
routines the code calls (difflib.SequenceMatcher.ratio, uuid.UUID,
str.split, str.strip) are embedded from their CPython sources.
-/

namespace difflib

/-- The b2j occurrence map built by SequenceMatcher.__chain_b: the
ascending list of positions of a character in b. The isjunk argument is
always None in the repository, so the junk set is empty and omitted;
autojunk deletes the entries of popular characters when len(b) >= 200. -/
def b2j (b : List Char) (c : Char) : List Nat :=
  let js := (List.range b.length).filter (fun j => b.getD j ' ' == c)
  if 200 ≤ b.length && b.length / 100 + 1 < js.length then [] else js

/-- Inner loop of find_longest_match over the occurrence list of a[i] in
b: j2old is the j2len dict of the previous row, j2new the one being
built, best the running (besti, bestj, bestsize). Positions below blo
are skipped and the loop breaks at bhi (the lists are ascending). -/
def flm_inner (j2old : Nat → Nat) (i blo bhi : Nat) :
    List Nat → (Nat → Nat) → Nat × Nat × Nat → ((Nat → Nat) × (Nat × Nat × Nat))
  | [], j2new, best => (j2new, best)
  | j :: js, j2new, best =>
    if j < blo then flm_inner j2old i blo bhi js j2new best
    else if bhi ≤ j then (j2new, best)
    else
      let k := (if j = 0 then 0 else j2old (j - 1)) + 1
      let j2new2 := fun x => if x = j then k else j2new x
      let best2 := if best.2.2 < k then (i + 1 - k, j + 1 - k, k) else best
      flm_inner j2old i blo bhi js j2new2 best2

/-- Outer loop of find_longest_match over i in range(alo, ahi). -/
def flm_outer (a : List Char) (bj : Char → List Nat) (blo bhi : Nat) :
    List Nat → (Nat → Nat) → Nat × Nat × Nat → Nat × Nat × Nat
  | [], _, best => best
  | i :: irest, j2len, best =>
    let r := flm_inner j2len i blo bhi (bj (a.getD i ' ')) (fun _ => 0) best
    flm_outer a bj blo bhi irest r.1 r.2

/-- While loop extending the best block to the left over equal
elements. The junk-extension variants in the source are no-ops here
because the junk set is empty. -/
def extend_left (a b : List Char) (alo blo : Nat) :
    Nat → Nat → Nat → Nat × Nat × Nat
  | 0, bj, bs => (0, bj, bs)
  | bi + 1, bj, bs =>
    if alo ≤ bi && blo < bj && (a.getD bi ' ' == b.getD (bj - 1) ' ') then
      extend_left a b alo blo bi (bj - 1) (bs + 1)
    else (bi + 1, bj, bs)

/-- While loop extending the best block to the right; the fuel only
bounds the iteration count and ahi always suffices. -/
def extend_right (a b : List Char) (ahi bhi bi bj : Nat) :
    Nat → Nat → Nat
  | 0, bs => bs
  | fuel + 1, bs =>
    if bi + bs < ahi && bj + bs < bhi && (a.getD (bi + bs) ' ' == b.getD (bj + bs) ' ') then
      extend_right a b ahi bhi bi bj fuel (bs + 1)
    else bs

/-- SequenceMatcher.find_longest_match over a[alo:ahi] and b[blo:bhi]
with an empty junk set. -/
def find_longest_match (a b : List Char) (bj : Char → List Nat)
    (alo ahi blo bhi : Nat) : Nat × Nat × Nat :=
  let best := flm_outer a bj blo bhi (List.range' alo (ahi - alo)) (fun _ => 0) (alo, blo, 0)
  let e := extend_left a b alo blo best.1 best.2.1 best.2.2
  (e.1, e.2.1, extend_right a b ahi bhi e.1 e.2.1 ahi e.2.2)

/-- Total size of the matching blocks collected by get_matching_blocks
(its final sort and adjacent-block merge do not change the total). The
fuel bounds the recursion depth; a.length + b.length + 1 always
suffices because every recursive call strictly shrinks the interval. -/
def match_total (a b : List Char) (bj : Char → List Nat) :
    Nat → Nat → Nat → Nat → Nat → Nat
  | 0, _, _, _, _ => 0
  | fuel + 1, alo, ahi, blo, bhi =>
    let r := find_longest_match a b bj alo ahi blo bhi
    let i := r.1
    let j := r.2.1
    let k := r.2.2
    if k = 0 then 0
    else
      k + (if alo < i && blo < j then match_total a b bj fuel alo i blo j else 0)
        + (if i + k < ahi && j + k < bhi then match_total a b bj fuel (i + k) ahi (j + k) bhi else 0)

/-- SequenceMatcher.ratio(): 2.0 * M / T where M is the total size of
the matching blocks and T the combined length (_calculate_ratio, which
returns 1.0 when T = 0). -/
def ratio (a b : List Char) : ℚ :=
  let m := match_total a b (b2j b) (a.length + b.length + 1) 0 a.length 0 b.length
  if a.length + b.length = 0 then 1
  else (2 * m : ℚ) / ((a.length + b.length : Nat) : ℚ)

end difflib

/-- PromptRegistry._calculate_similarity: difflib ratio of the
lowercased strings. -/
def calculate_similarity (t1 t2 : String) : ℚ :=
  difflib.ratio t1.toLower.data t2.toLower.data

/-- ASCII fragment of the regex class \w used by _extract_words. -/
def is_word_char (c : Char) : Bool := c.isAlphanum || c == '_'

/-- Maximal runs of word characters, following
re.findall(r'\b\w+\b', text) on ASCII text. -/
def word_runs : List Char → List (List Char)
  | [] => []
  | c :: rest =>
    if is_word_char c then
      (c :: rest.takeWhile is_word_char) :: word_runs (rest.dropWhile is_word_char)
    else
      word_runs rest
termination_by l => l.length
decreasing_by
  · simpa using Nat.lt_succ_of_le (List.dropWhile_suffix is_word_char).length_le
  · simp

/-- PromptRegistry._extract_words: lowercase, then keep the word runs. -/
def extract_words (text : String) : List String :=
  (word_runs text.toLower.data).map (fun l => String.mk l)

/-- Leading-match test on character lists (an empty pattern matches). -/
def starts_with_chars : List Char → List Char → Bool
  | [], _ => true
  | _ :: _, [] => false
  | c :: cs, d :: ds => c == d && starts_with_chars cs ds

/-- Contiguous containment on character lists. -/
def contains_chars (needle : List Char) : List Char → Bool
  | [] => needle.isEmpty
  | d :: ds => starts_with_chars needle (d :: ds) || contains_chars needle ds

/-- Python substring test: needle in haystack. -/
def py_in (needle haystack : String) : Bool := contains_chars needle.data haystack.data

/-- PromptTemplate dataclass from backend/app/prompts/registry.py. A
None synonyms field is represented by the empty list, which Python
treats identically (both are falsy). -/
structure PromptTemplate where
  name : String
  description : String
  system_prompt : String
  keywords : List String
  synonyms : List String := []
  priority : Int := 1
  requires_webcam : Bool := false
  requires_keypad : Bool := false
  max_tokens : Nat := 100
  temperature : ℚ := 7/10
deriving DecidableEq, Repr

/-- The available_features dict; the code reads only the webcam and
keypad keys, each defaulting to False. -/
structure Features where
  webcam : Bool := false
  keypad : Bool := false
deriving DecidableEq, Repr

/-- One keyword/synonym substring pass of _score_template_match: add c
for every list entry whose lowercased text occurs in the (already
lowercased) target string. -/
def keyword_substr_loop (ks : List String) (low : String) (c : ℚ) (s : ℚ) : ℚ :=
  ks.foldl (fun s k => if py_in k.toLower low then s + c else s) s

/-- One fuzzy pass of _score_template_match: for every list entry whose
similarity with the word exceeds 0.8, add similarity * c. -/
def fuzzy_loop (ks : List String) (w : String) (c : ℚ) (s : ℚ) : ℚ :=
  ks.foldl (fun s k =>
    let r := calculate_similarity w k
    if 4/5 < r then s + r * c else s) s

/-- Body of the per-word fuzzy loop: keywords at weight 0.5, then
synonyms at weight 0.3 when the synonym list is truthy. -/
def word_fuzzy_loop (t : PromptTemplate) (s : ℚ) (w : String) : ℚ :=
  let s := fuzzy_loop t.keywords w (1/2) s
  if t.synonyms ≠ [] then fuzzy_loop t.synonyms w (3/10) s else s

/-- Body of the bigram loop: the phrase of words i and i+1 is tested
against keywords (+0.5) and synonyms (+0.3). -/
def bigram_loop (t : PromptTemplate) (user_words : List String) (s : ℚ) (i : Nat) : ℚ :=
  let phrase := user_words.getD i "" ++ " " ++ user_words.getD (i + 1) ""
  let s := keyword_substr_loop t.keywords phrase (1/2) s
  if t.synonyms ≠ [] then keyword_substr_loop t.synonyms phrase (3/10) s else s

/-- PromptRegistry._score_template_match with every float constant
written as the exact rational it denotes in the source: keyword
substring hits (+2.0), synonym substring hits (+1.5), per-word fuzzy
contributions, the priority bonus (priority * 0.1), and, for inputs of
more than two words, the bigram bonuses. -/
def score_template_match (t : PromptTemplate) (user_input : String) : ℚ :=
  let user_words := extract_words user_input
  let lower := user_input.toLower
  let s : ℚ := 0
  let s := keyword_substr_loop t.keywords lower 2 s
  let s := if t.synonyms ≠ [] then keyword_substr_loop t.synonyms lower (3/2) s else s
  let s := user_words.foldl (word_fuzzy_loop t) s
  let s := s + (t.priority : ℚ) * (1/10)
  if 2 < user_words.length then
    (List.range (user_words.length - 1)).foldl (bigram_loop t user_words) s
  else s

/-- Python max(items, key=lambda x: x[1]) over a nonempty list: the
running best is replaced only on a strictly greater score, so the first
maximal item wins. -/
def max_by_score (x : String × ℚ) : List (String × ℚ) → String × ℚ
  | [] => x
  | y :: ys => max_by_score (if x.2 < y.2 then y else x) ys

/-- PromptRegistry.select_template_autonomous. The registry dict is
modelled as the list of templates in registration order (names are
distinct, so the by-name dict indexing is a find by name); the result
is an Option because the final dict lookups would raise on a registry
without a questions template. -/
def select_template_autonomous (reg : List PromptTemplate) (user_input : String)
    (features : Features) : Option PromptTemplate :=
  let scores := reg.filterMap (fun t =>
    if t.requires_webcam && !features.webcam then none
    else if t.requires_keypad && !features.keypad then none
    else some (t.name, score_template_match t user_input))
  match scores with
  | [] => reg.find? (fun t => t.name == "questions")
  | x :: xs =>
    let best := max_by_score x xs
    if 0 < best.2 then reg.find? (fun t => t.name == best.1)
    else reg.find? (fun t => t.name == "questions")
def conversation_template : PromptTemplate := {
  name := "conversation",
  description := "General friendly conversation",
  system_prompt := "You are The Trickster — playful, mischievous, theatrical. Speak with color and surprise, but stay kind. Keep replies short unless asked for more.\n\nIMPORTANT: Keep all responses brief and concise. Aim for 1-2 sentences maximum for most interactions.\n\nBE DIRECT: Give clear, straightforward answers. Avoid rambling or unnecessary elaboration. Get to the point quickly while maintaining your playful personality.\n\nAudience & Safety (public space)\nPG language. No profanity, slurs, harassment, medical/legal advice, or identity guesses.\nAvoid discussing age, gender, race, or private traits about the visitor. Do not claim to see their identity.\nIf a request is unsafe or disallowed, deflect with humor and offer a safe alternative.\n\nStyle\nVivid imagery, light alliteration, occasional rhyme. Never cruel or insulting.\nPrefer 1–2 sentences for normal chat. Keep responses punchy and to the point.\n\nBehavior\nNever mention that you are an AI or that you saw an image; speak as a character in the booth.\nKeep responses short, witty, and engaging. Quality over quantity.\nBe direct and to the point. No unnecessary words or explanations.",
  keywords := ["hello", "hi", "how are you", "chat", "talk", "conversation", "general"],
  synonyms := ["hey", "greetings", "what\x27s up", "howdy", "yo", "sup", "good morning", "good afternoon", "good evening"],
  priority := 1 }

def questions_template : PromptTemplate := {
  name := "questions",
  description := "Ask engaging, open-ended questions",
  system_prompt := "You are The Trickster — the curious questioner who loves to spark interesting conversations.\n\nQUESTION MODE: Ask one engaging, open-ended question from the provided list. Choose questions that are:\n- Thought-provoking but not too personal\n- Fun and playful\n- Designed to get people talking\n- Appropriate for public spaces\n\nStyle\n- Ask only ONE question at a time\n- Be enthusiastic and curious\n- Keep the question concise (1-2 sentences max)\n- Make it feel personal and engaging\n\nBehavior\n- After asking a question, wait for their response\n- When they respond, switch to conversation mode to engage with their answer\n- Never ask multiple questions at once\n- Keep questions light and fun, not controversial",
  keywords := ["question", "ask", "curious", "wonder", "think", "imagine"],
  synonyms := ["questions", "asking", "curiosity", "wondering", "thinking", "imagining", "what if", "suppose"],
  priority := 0 }

def riddles_template : PromptTemplate := {
  name := "riddles",
  description := "Give riddles and puzzles",
  system_prompt := "You are The Trickster — the master of riddles and puzzles. Give engaging, solvable riddles.\n\nRIDDLE MODE: Give one riddle at a time. Format: the riddle text, then on a new line \"Answer: <answer>\".\n\nStyle\n- Riddles should be 2-4 lines maximum\n- One unambiguous answer only\n- Playful and engaging\n- Not too difficult or too easy\n\nBehavior\n- If multiple answers could fit, revise until only one fits\n- Keep the riddle concise and punchy\n- Add a playful comment after the answer",
  keywords := ["riddle", "puzzle", "brain teaser", "guess", "mystery", "enigma"],
  synonyms := ["riddles", "puzzles", "brain teasers", "mysteries", "enigmas", "conundrum", "conundrums", "wordplay", "logic puzzle", "mind bender"],
  priority := 2 }

def compliments_template : PromptTemplate := {
  name := "compliments",
  description := "Give genuine, creative compliments",
  system_prompt := "You are The Trickster — the master of uplifting spirits with genuine, creative compliments.\n\nCOMPLIMENT MODE: Give specific, creative compliments that feel personal and genuine.\n\nStyle\n- Be specific and creative\n- Focus on personality, energy, or presence\n- Avoid generic or superficial compliments\n- Keep it playful but sincere\n- 1-2 sentences maximum\n\nBehavior\n- Never mention physical appearance unless specifically asked\n- Focus on character, energy, or positive qualities\n- Make it feel personal and genuine",
  keywords := ["compliment", "nice", "kind", "sweet", "positive", "uplift", "cheer"],
  synonyms := ["compliments", "nice things", "kind words", "sweet words", "positive vibes", "uplifting", "cheerful", "encouraging", "supportive", "flattering", "praise", "appreciation"],
  priority := 2 }

def advice_template : PromptTemplate := {
  name := "advice",
  description := "Give thoughtful, playful advice",
  system_prompt := "You are The Trickster — the wise fool who gives surprisingly good advice with a playful twist.\n\nADVICE MODE: Give thoughtful, practical advice wrapped in playful wisdom.\n\nStyle\n- Be genuinely helpful but keep it light\n- Add a playful or whimsical element\n- Keep advice practical and actionable\n- 1-2 sentences maximum\n- Avoid medical, legal, or financial advice\n\nBehavior\n- Focus on general life wisdom\n- Add a trickster\x27s perspective\n- Keep it safe and appropriate\n- Make it memorable and fun",
  keywords := ["advice", "help", "problem", "issue", "what should I do", "suggestion"],
  synonyms := ["advise", "guidance", "counsel", "recommendation", "tip", "hint", "suggestions", "trouble", "difficulty", "challenge", "dilemma", "question", "wondering", "confused", "stuck"],
  priority := 2 }

def stories_template : PromptTemplate := {
  name := "stories",
  description := "Tell or request short stories",
  system_prompt := "You are The Trickster — the master storyteller who weaves tiny tales of wonder and mischief.\n\nSTORY MODE: Tell very short, engaging stories (2-3 sentences maximum) or ask users to tell you stories.\n\nStyle\n- Stories should be 2-3 sentences maximum\n- Include a twist or surprise ending\n- Vivid imagery and playful language\n- Can be about anything but keep it appropriate\n\nBehavior\n- Ask users to tell you stories too\n- React to their stories with enthusiasm\n- Keep your own stories very brief\n- Make them memorable and fun",
  keywords := ["story", "tale", "narrative", "tell me a story", "once upon a time"],
  synonyms := ["stories", "tales", "narratives", "fable", "fables", "legend", "legends", "myth", "myths", "adventure", "adventures", "journey", "journeys", "epic", "epics"],
  priority := 2 }

def fashion_template : PromptTemplate := {
  name := "fashion",
  description := "Evaluate fashion and style via webcam",
  system_prompt := "You are The Trickster — the fashion-forward friend who gives playful style commentary.\n\nFASHION MODE: Analyze the user\x27s outfit through the webcam and give playful, positive fashion feedback.\n\nStyle\n- Be encouraging and positive\n- Focus on colors, style, and overall vibe\n- Add playful suggestions\n- Keep it brief and fun\n- 1-2 sentences maximum\n\nBehavior\n- Always be encouraging, never critical\n- Focus on what works well\n- Add playful style suggestions\n- Keep it light and fun",
  keywords := ["fashion", "outfit", "style", "clothes", "dress", "look", "appearance"],
  synonyms := ["fashionable", "stylish", "outfits", "clothing", "attire", "ensemble", "wardrobe", "dressed", "looking", "appearances", "style advice", "fashion advice", "how do I look", "what do you think of my outfit"],
  priority := 3,
  requires_webcam := true }

def default_templates : List PromptTemplate :=
  [conversation_template, questions_template, riddles_template, compliments_template, advice_template, stories_template, fashion_template]

def curated_questions : List String :=
  ["If you could have any superpower for just one day, what would it be and why?",
   "What\x27s the most ridiculous thing you\x27ve ever done to avoid doing something else?",
   "If your life was a movie, what would the title be?",
   "What\x27s the weirdest food combination you actually enjoy?",
   "If you could time travel to any era for a week, where would you go?",
   "What\x27s the most creative solution you\x27ve ever come up with for a problem?",
   "If you could invent any gadget to make life easier, what would it do?",
   "What\x27s the most beautiful place you\x27ve ever imagined but never visited?",
   "If you could paint your dreams, what colors would dominate the canvas?",
   "What\x27s the most magical moment you\x27ve ever experienced?",
   "What\x27s something you\x27ve learned about yourself recently that surprised you?",
   "What\x27s the best piece of advice you\x27ve ever received?",
   "What\x27s something you\x27re looking forward to that most people wouldn\x27t understand?",
   "What\x27s a skill you wish you had that would make life more fun?",
   "What\x27s the most valuable lesson you\x27ve learned from a mistake?",
   "What\x27s the most interesting conversation you\x27ve had with a stranger?",
   "What\x27s something you do that always makes people smile?",
   "What\x27s the most thoughtful thing someone has done for you?",
   "What\x27s a tradition you\x27ve created with friends or family?",
   "What\x27s the most unexpected friendship you\x27ve ever formed?",
   "What\x27s the most spontaneous thing you\x27ve ever done that turned out great?",
   "What\x27s the most beautiful sound you\x27ve ever heard?",
   "What\x27s the most peaceful moment you can remember?",
   "What\x27s something you\x27ve always wanted to try but haven\x27t yet?",
   "What\x27s the most interesting person you\x27ve ever met and why?",
   "What\x27s something you believe that most people would disagree with?",
   "What\x27s the most important thing you\x27ve changed your mind about?",
   "What\x27s something that always makes you feel hopeful?",
   "What\x27s the most meaningful compliment you\x27ve ever received?",
   "What\x27s something you\x27re grateful for that you used to take for granted?",
   "If you could have dinner with any fictional character, who would it be?",
   "What\x27s the most ridiculous thing you\x27d do for a million dollars?",
   "If you could master any skill instantly, what would you choose?",
   "What\x27s the most interesting thing you\x27ve ever found?",
   "If you could solve any mystery in history, which would you pick?",
   "What\x27s the most fun you\x27ve ever had doing something you were terrible at?",
   "What\x27s something that always makes you laugh, no matter how many times you see it?",
   "What\x27s the most interesting thing you\x27ve learned this week?",
   "What\x27s something you\x27re excited about that\x27s coming up soon?",
   "What\x27s the most beautiful thing you\x27ve seen today?"]

/-- The scoring formula as the specification words it: 2.0 per keyword
occurring as a case-insensitive substring of the raw input, 1.5 per
synonym substring, similarity-weighted contributions for word/keyword
and word/synonym pairs above the 0.8 threshold, bigram bonuses when the
input has more than two words, and a 0.1-per-point priority bias. This
definition follows the claim text and is compared with the
source-derived score_template_match. -/
def spec_match_score (t : PromptTemplate) (user_input : String) : ℚ :=
  let ws := extract_words user_input
  let keyword_hits :=
    (t.keywords.map (fun k => if py_in k.toLower user_input.toLower then (2 : ℚ) else 0)).sum
  let synonym_hits :=
    (t.synonyms.map (fun k => if py_in k.toLower user_input.toLower then (3/2 : ℚ) else 0)).sum
  let fuzzy :=
    (ws.map (fun w =>
      (t.keywords.map (fun k =>
        if 4/5 < calculate_similarity w k then calculate_similarity w k * (1/2) else 0)).sum
      + (t.synonyms.map (fun k =>
        if 4/5 < calculate_similarity w k then calculate_similarity w k * (3/10) else 0)).sum)).sum
  let bigram_hits :=
    if 2 < ws.length then
      ((ws.zip ws.tail).map (fun p =>
        (t.keywords.map (fun k => if py_in k.toLower (p.1 ++ " " ++ p.2) then (1/2 : ℚ) else 0)).sum
        + (t.synonyms.map (fun k => if py_in k.toLower (p.1 ++ " " ++ p.2) then (3/10 : ℚ) else 0)).sum)).sum
    else 0
  keyword_hits + synonym_hits + fuzzy + bigram_hits + (t.priority : ℚ) * (1/10)

/-- ASCII fragment of the whitespace characters recognised by Python
str.strip, str.split and int(). -/
def py_is_space (c : Char) : Bool :=
  c == ' ' || c == '\t' || c == '\n' || c == '\r' || c == '\x0b' || c == '\x0c'

/-- Value of an ASCII hexadecimal digit as accepted by int(..., 16):
0-9, a-f, A-F by character code. -/
def hex_digit_val (c : Char) : Option Nat :=
  if 48 ≤ c.toNat && c.toNat ≤ 57 then some (c.toNat - 48)
  else if 97 ≤ c.toNat && c.toNat ≤ 102 then some (c.toNat - 87)
  else if 65 ≤ c.toNat && c.toNat ≤ 70 then some (c.toNat - 55)
  else none

/-- Digit chain of int(..., 16) after the first digit: single
underscores are allowed between digits only. -/
def hex_digits_go (acc : Nat) : List Char → Option Nat
  | [] => some acc
  | c :: rest =>
    if c == '_' then
      match rest with
      | c2 :: rest2 =>
        match hex_digit_val c2 with
        | some v => hex_digits_go (acc * 16 + v) rest2
        | none => none
      | [] => none
    else
      match hex_digit_val c with
      | some v => hex_digits_go (acc * 16 + v) rest
      | none => none

/-- Nonempty digit chain: the first character must be a hex digit. -/
def hex_chain : List Char → Option Nat
  | [] => none
  | c :: rest =>
    match hex_digit_val c with
    | some v => hex_digits_go v rest
    | none => none

/-- Python int(string, 16): optional surrounding whitespace, optional
sign, optional 0x/0X base marker (with one optional underscore after
it), then hex digits with single underscores between digits. -/
def py_int16 (l : List Char) : Option Int :=
  let t := ((l.dropWhile py_is_space).reverse.dropWhile py_is_space).reverse
  match t with
  | [] => none
  | c :: rest =>
    let sb : Int × List Char :=
      if c == '+' then (1, rest) else if c == '-' then (-1, rest) else (1, c :: rest)
    let body := sb.2
    let body2 :=
      if body.getD 0 ' ' == '0' && (body.getD 1 ' ' == 'x' || body.getD 1 ' ' == 'X')
          && 2 ≤ body.length then
        if body.getD 2 ' ' == '_' then body.drop 3 else body.drop 2
      else body
    (hex_chain body2).map (fun n => sb.1 * (n : Int))

/-- Left-to-right non-overlapping removal of the pattern p :: ps,
following str.replace(pat, ""). -/
def replace_tok (p : Char) (ps : List Char) : List Char → List Char
  | [] => []
  | c :: rest =>
    if starts_with_chars (p :: ps) (c :: rest) then replace_tok p ps (rest.drop ps.length)
    else c :: replace_tok p ps rest
termination_by l => l.length
decreasing_by
  · simp only [List.length_cons, List.length_drop]
    omega
  · simp

/-- str.strip of curly braces from both ends. -/
def strip_braces (l : List Char) : List Char :=
  ((l.dropWhile (fun c => c == '\x7b' || c == '\x7d')).reverse.dropWhile
    (fun c => c == '\x7b' || c == '\x7d')).reverse

/-- uuid.UUID(hex=s): remove the urn: and uuid: tokens, strip curly
braces, drop hyphens, require exactly 32 characters, convert with
int(..., 16) and require a nonnegative value below 2^128. Returns the
128-bit integer value of the UUID. -/
def python_uuid (s : String) : Option Nat :=
  let h1 := replace_tok 'u' ['r', 'n', ':'] s.data
  let h2 := replace_tok 'u' ['u', 'i', 'd', ':'] h1
  let h3 := (strip_braces h2).filter (fun c => c != '-')
  if h3.length = 32 then
    match py_int16 h3 with
    | some n => if 0 ≤ n ∧ n < 2 ^ 128 then some n.toNat else none
    | none => none
  else none

/-- A canonical UUIDv4 string: five hyphen-separated hex groups of
sizes 8-4-4-4-12 whose version nibble is 4 and whose variant nibble is
one of 8, 9, a, b. -/
def IsCanonicalUUID4 (s : String) : Prop :=
  ∃ g1 g2 g3 g4 g5 : List Char,
    s.data = g1 ++ '-' :: (g2 ++ '-' :: (g3 ++ '-' :: (g4 ++ '-' :: g5))) ∧
    g1.length = 8 ∧ g2.length = 4 ∧ g3.length = 4 ∧ g4.length = 4 ∧ g5.length = 12 ∧
    (∀ c ∈ g1, (hex_digit_val c).isSome = true) ∧
    (∀ c ∈ g2, (hex_digit_val c).isSome = true) ∧
    (∀ c ∈ g3, (hex_digit_val c).isSome = true) ∧
    (∀ c ∈ g4, (hex_digit_val c).isSome = true) ∧
    (∀ c ∈ g5, (hex_digit_val c).isSome = true) ∧
    g3.headD ' ' = '4' ∧
    (g4.headD ' ' = '8' ∨ g4.headD ' ' = '9' ∨ g4.headD ' ' = 'a' ∨ g4.headD ' ' = 'b' ∨
     g4.headD ' ' = 'A' ∨ g4.headD ' ' = 'B')

/-- Turn record (role, content, timestamp). The store and session model
files (backend/app/sessions/) are absent from src/, so the session data
model is modelled from the spec data-model section. -/
structure Turn where
  role : String
  content : String
  ts : ℚ
deriving DecidableEq, Repr

/-- Modelled from the spec: the Session record of the missing
backend/app/sessions/models.py — id, booth_id, personality, mode,
ordered turns, created_at, updated_at and ttl_seconds (the configured
default is 600). The UUID is carried as its 128-bit integer value. -/
structure Session where
  session_id : Nat
  booth_id : String
  personality : String
  mode : String
  turns : List Turn
  created_at : ℚ
  updated_at : ℚ
  ttl_seconds : ℚ := 600
deriving DecidableEq, Repr

/-- The in-memory store as an association list in insertion order
(backend/app/sessions/store.py is absent from src/; the contract is
modelled from the spec). -/
abbrev SessionStore := List (Nat × Session)

def store_lookup (st : SessionStore) (id : Nat) : Option Session :=
  (st.find? (fun e => e.1 == id)).map (fun e => e.2)

/-- Modelled from the spec: lazy TTL expiry — a record whose age
exceeds ttl_seconds behaves as absent. -/
def is_expired (now : ℚ) (s : Session) : Bool := s.ttl_seconds < now - s.created_at

/-- Modelled from the spec: get returns absent for missing or expired
records. -/
def store_get (st : SessionStore) (now : ℚ) (id : Nat) : Option Session :=
  match store_lookup st id with
  | some s => if is_expired now s then none else some s
  | none => none

/-- Modelled from the spec: create_if_absent returns the existing
unexpired record with created=false, otherwise inserts the new record
and returns created=true. -/
def create_if_absent (st : SessionStore) (now : ℚ) (s : Session) :
    Session × Bool × SessionStore :=
  match store_lookup st s.session_id with
  | some ex =>
    if is_expired now ex then
      (s, true, (st.filter (fun e => e.1 != s.session_id)) ++ [(s.session_id, s)])
    else (ex, false, st)
  | none => (s, true, st ++ [(s.session_id, s)])

/-- Appending one turn to a session record, refreshing updated_at. -/
def with_turn (now : ℚ) (t : Turn) (s : Session) : Session :=
  { s with turns := s.turns ++ [t], updated_at := now }

/-- Modelled from the spec: append_turn is a no-op when the session is
absent or expired, otherwise appends the turn and refreshes
updated_at. -/
def append_turn (st : SessionStore) (now : ℚ) (id : Nat) (t : Turn) : SessionStore :=
  match store_get st now id with
  | none => st
  | some _ =>
    st.map (fun e => if e.1 == id then (e.1, with_turn now t e.2) else e)

/-- The rightmost n elements of a list, in order. -/
def take_last {α : Type} (n : Nat) (l : List α) : List α := (l.reverse.take n).reverse

/-- Modelled from the spec: truncate_history retains only the most
recent history_max_turns turns, dropping the oldest and preserving
relative order (backend/app/sessions/models.py is absent from src/). -/
def truncate_history (s : Session) (history_max_turns : Nat) : Session :=
  { s with turns := take_last history_max_turns s.turns }

/-- In-store application of truncate_history to the shared session
object that api.generate mutates. -/
def truncate_in_store (st : SessionStore) (id : Nat) (h : Nat) : SessionStore :=
  st.map (fun e => if e.1 == id then (e.1, truncate_history e.2 h) else e)

/-- The backend configuration values the embedded endpoints read, with
the defaults of backend/app/config.py. -/
structure BackendConfig where
  ttl_seconds : ℚ := 600
  history_max_turns : Nat := 8
  llm_max_tokens : Nat := 180
  llm_temperature : ℚ := 4/5
  llm_top_p : ℚ := 9/10

structure SessionStartRequest where
  session_id : String
  booth_id : String
  personality : String
  mode : String

structure SessionStartResponse where
  session_id : Nat
  created : Bool
  expires_in_seconds : ℚ
deriving DecidableEq, Repr

/-- The /session/start endpoint (api.py session_start): validate the
UUID (400 on failure, store untouched), build the Session record and
run create_if_absent. The response session_id is carried as the UUID
value. -/
def session_start (cfg : BackendConfig) (st : SessionStore) (now : ℚ)
    (req : SessionStartRequest) : Except Nat SessionStartResponse × SessionStore :=
  match python_uuid req.session_id with
  | none => (Except.error 400, st)
  | some uuid =>
    let session : Session :=
      { session_id := uuid, booth_id := req.booth_id, personality := req.personality,
        mode := req.mode, turns := [], created_at := now, updated_at := now,
        ttl_seconds := cfg.ttl_seconds }
    let r := create_if_absent st now session
    (Except.ok { session_id := r.1.session_id, created := r.2.1,
                 expires_in_seconds := r.1.ttl_seconds }, r.2.2)

structure Usage where
  prompt_tokens : Nat
  completion_tokens : Nat
  total_tokens : Nat
deriving DecidableEq, Repr

structure ChatMessage where
  role : String
  content : String
deriving DecidableEq, Repr

structure GenerateRequest where
  session_id : String
  user_text : String
  personality : Option String := none
  mode : Option String := none

structure GenerateResponse where
  text : String
  personality : String
  usage : Usage
  selected_mode : String
deriving DecidableEq, Repr

/-- Python or-fallback on an optional string field: absent and empty
values are falsy. -/
def py_or_str (o : Option String) (d : String) : String :=
  match o with
  | some v => if v ≠ "" then v else d
  | none => d

/-- The questions-mode prompt suffix built in api.generate. -/
def question_injection (system_prompt q : String) : String :=
  system_prompt ++ "\n\nCURRENT QUESTION TO ASK: " ++ q ++
    "\n\nIMPORTANT: Ask this exact question to the user. Do not modify it. Just ask it naturally and enthusiastically."

/-- The /generate endpoint (api.py generate). The generation engine and
the random.choice call of get_random_question enter as oracle
parameters; available features are hardcoded to false as in the
source. The mode override is computed and, as in the source, never
used. -/
def api_generate (cfg : BackendConfig) (st : SessionStore) (now : ℚ)
    (engine : String → List ChatMessage → Nat → ℚ → ℚ → String × Usage)
    (choose : List String → String)
    (req : GenerateRequest) : Except Nat GenerateResponse × SessionStore :=
  match python_uuid req.session_id with
  | none => (Except.error 400, st)
  | some uuid =>
    match store_get st now uuid with
    | none => (Except.error 404, st)
    | some session =>
      let personality := py_or_str req.personality session.personality
      let _mode := py_or_str req.mode session.mode
      let messages := session.turns.map (fun t => ChatMessage.mk t.role t.content)
        ++ [ChatMessage.mk "user" req.user_text]
      let features : Features := { webcam := false, keypad := false }
      match select_template_autonomous default_templates req.user_text features with
      | none => (Except.error 500, st)
      | some tpl =>
        let system_prompt :=
          if tpl.name == "questions" then
            question_injection tpl.system_prompt (choose curated_questions)
          else tpl.system_prompt
        let max_tokens := if tpl.max_tokens ≠ 0 then tpl.max_tokens else cfg.llm_max_tokens
        let temperature := if tpl.temperature ≠ 0 then tpl.temperature else cfg.llm_temperature
        let top_p := cfg.llm_top_p
        let r := engine system_prompt messages max_tokens temperature top_p
        let st1 := append_turn st now uuid (Turn.mk "user" req.user_text now)
        let st2 := append_turn st1 now uuid (Turn.mk "assistant" r.1 now)
        let st3 := truncate_in_store st2 uuid cfg.history_max_turns
        (Except.ok { text := r.1, personality := personality, usage := r.2,
                     selected_mode := tpl.name }, st3)

/-- Iterated generate calls against the same session (one per user
text), returning the final store and the list of turns the calls
appended, in order. Stops on an error. -/
def run_generates (cfg : BackendConfig)
    (engine : String → List ChatMessage → Nat → ℚ → ℚ → String × Usage)
    (choose : List String → String) (sid : String) (now : ℚ) :
    List String → SessionStore → SessionStore × List Turn
  | [], st => (st, [])
  | u :: rest, st =>
    match api_generate cfg st now engine choose { session_id := sid, user_text := u } with
    | (Except.ok resp, st2) =>
      let r := run_generates cfg engine choose sid now rest st2
      (r.1, Turn.mk "user" u now :: Turn.mk "assistant" resp.text now :: r.2)
    | (Except.error _, st2) => (st2, [])

/-- LlamaCppEngine constructor defaults (llama_cpp_engine.py). -/
structure LlamaDefaults where
  max_tokens : Nat := 180
  temperature : ℚ := 4/5
  top_p : ℚ := 9/10

/-- Python or-fallback on an optional numeric parameter (zero is
falsy). -/
def py_or_nat (o : Option Nat) (d : Nat) : Nat :=
  match o with
  | some v => if v ≠ 0 then v else d
  | none => d

/-- Python or-fallback on an optional rational parameter (zero is
falsy). -/
def py_or_rat (o : Option ℚ) (d : ℚ) : ℚ :=
  match o with
  | some v => if v ≠ 0 then v else d
  | none => d

/-- LlamaCppEngine._build_prompt: system block, then the user,
assistant and system messages (other roles are skipped), then the
assistant cue. -/
def build_prompt (system_prompt : String) (messages : List ChatMessage) : String :=
  let parts := ("<|system|>\n" ++ system_prompt ++ "\n<|endoftext|>") ::
    messages.filterMap (fun m =>
      if m.role == "user" then some ("<|user|>\n" ++ m.content ++ "\n<|endoftext|>")
      else if m.role == "assistant" then some ("<|assistant|>\n" ++ m.content ++ "\n<|endoftext|>")
      else if m.role == "system" then some ("<|system|>\n" ++ m.content ++ "\n<|endoftext|>")
      else none)
  String.join (parts ++ ["<|assistant|>\n"])

/-- str.strip() on ASCII whitespace. -/
def py_strip (s : String) : String :=
  String.mk (((s.data.dropWhile py_is_space).reverse.dropWhile py_is_space).reverse)

/-- Maximal runs of non-whitespace characters, following str.split()
with no separator. -/
def nonspace_runs : List Char → List (List Char)
  | [] => []
  | c :: rest =>
    if py_is_space c then nonspace_runs rest
    else (c :: rest.takeWhile (fun d => !py_is_space d)) ::
      nonspace_runs (rest.dropWhile (fun d => !py_is_space d))
termination_by l => l.length
decreasing_by
  · simp
  · simpa using Nat.lt_succ_of_le (List.dropWhile_suffix (fun d => !py_is_space d)).length_le

/-- str.split() with no separator. -/
def py_split_ws (s : String) : List String := (nonspace_runs s.data).map String.mk

/-- The apology fallback text of LlamaCppEngine.generate. -/
def fallback_text : String :=
  "I\x27m having trouble thinking of a response right now. Could you try again?"

/-- The usage dict built in the fallback branch: zero prompt tokens and
the whitespace word count of the apology for completion and total. -/
def fallback_usage : Usage :=
  { prompt_tokens := 0,
    completion_tokens := (py_split_ws fallback_text).length,
    total_tokens := (py_split_ws fallback_text).length }

/-- LlamaCppEngine.generate: resolve parameters with Python
or-semantics, build the prompt, and call the model. The inference call
enters as an oracle whose none outcome models a raised exception,
which the except branch converts into the apology fallback response
instead of propagating. -/
def llama_generate (d : LlamaDefaults)
    (infer : String → Nat → ℚ → ℚ → Option (String × Usage))
    (system_prompt : String) (messages : List ChatMessage)
    (max_tokens : Option Nat) (temperature top_p : Option ℚ) : String × Usage :=
  let mt := py_or_nat max_tokens d.max_tokens
  let temp := py_or_rat temperature d.temperature
  let tp := py_or_rat top_p d.top_p
  let prompt := build_prompt system_prompt messages
  match infer prompt mt temp tp with
  | some r => (py_strip r.1, r.2)
  | none => (fallback_text, fallback_usage)

/-- Classified outcome of one HTTP request as seen by
BackendClient._make_request: success, SessionNotFoundError (status
404), or BackendError (any other failure, including network errors and
5xx responses). -/
inductive HttpResp
  | ok
  | notFound
  | serverErr
deriving DecidableEq, Repr

inductive StartOutcome
  | ret (b : Bool)
  | raised
deriving DecidableEq, Repr

/-- BackendClient.start_session with the cached session descriptor: up
to retries attempts; a SessionNotFoundError is treated as "session
already exists" and returns True; a BackendError sleeps and retries,
re-raising on the last attempt; the loop can only fall through (return
False) when retries = 0. The oracle startO gives the response to the
n-th start HTTP request; the returned Nat is the updated request
index. -/
def start_session_loop (startO : Nat → HttpResp) : Nat → Nat → StartOutcome × Nat
  | 0, sIdx => (StartOutcome.ret false, sIdx)
  | attemptsLeft + 1, sIdx =>
    match startO sIdx with
    | HttpResp.ok => (StartOutcome.ret true, sIdx + 1)
    | HttpResp.notFound => (StartOutcome.ret true, sIdx + 1)
    | HttpResp.serverErr =>
      if 0 < attemptsLeft then start_session_loop startO attemptsLeft (sIdx + 1)
      else (StartOutcome.raised, sIdx + 1)

/-- Outcome of BackendClient.generate_response: success, or one of its
raised BackendError variants (start returned False; start itself
raised; the last attempt re-raised a server error; the attempt loop
was exhausted). -/
inductive GenOutcome
  | success
  | restartFailed
  | startError
  | serverError
  | exhausted
deriving DecidableEq, Repr

/-- Counters of HTTP requests issued so far: g generate requests and s
start requests; they also index the oracles. -/
structure ClientCounters where
  g : Nat
  s : Nat
deriving DecidableEq, Repr

/-- BackendClient.generate_response: up to retries attempts; a
SessionNotFoundError triggers start_session and, when it returns True,
the next loop iteration retries the generate call; a BackendError
sleeps and retries, re-raising on the last attempt; an exhausted loop
raises BackendError("Failed to generate response"). An exception
raised inside the SessionNotFoundError handler propagates out of the
call. -/
def generate_response_loop (genO startO : Nat → HttpResp) (retries : Nat) :
    Nat → ClientCounters → GenOutcome × ClientCounters
  | 0, c => (GenOutcome.exhausted, c)
  | attemptsLeft + 1, c =>
    match genO c.g with
    | HttpResp.ok => (GenOutcome.success, ⟨c.g + 1, c.s⟩)
    | HttpResp.notFound =>
      match start_session_loop startO retries c.s with
      | (StartOutcome.ret true, s2) =>
        generate_response_loop genO startO retries attemptsLeft ⟨c.g + 1, s2⟩
      | (StartOutcome.ret false, s2) => (GenOutcome.restartFailed, ⟨c.g + 1, s2⟩)
      | (StartOutcome.raised, s2) => (GenOutcome.startError, ⟨c.g + 1, s2⟩)
    | HttpResp.serverErr =>
      if 0 < attemptsLeft then
        generate_response_loop genO startO retries attemptsLeft ⟨c.g + 1, c.s⟩
      else (GenOutcome.serverError, ⟨c.g + 1, c.s⟩)

/-- BackendClient.generate_response entry point (retries is
config.session max_retries, default 3). -/
def generate_response (genO startO : Nat → HttpResp) (retries : Nat) :
    GenOutcome × ClientCounters :=
  generate_response_loop genO startO retries retries ⟨0, 0⟩

/-- Number of 404 responses among the first n generate requests. -/
def count_not_found (genO : Nat → HttpResp) (n : Nat) : Nat :=
  ((List.range n).filter (fun i => genO i == HttpResp.notFound)).length

/-- Capability gate of select_template_autonomous: a template survives
the filter when its webcam/keypad requirements are met. -/
def eligible (f : Features) (t : PromptTemplate) : Bool :=
  !(t.requires_webcam && !f.webcam) && !(t.requires_keypad && !f.keypad)

/-- Scenario used by C1: the no-match input of the spec. -/
def no_match_features : Features := { webcam := false, keypad := false }

/-- C1: evaluating the selection at the failing input of the claim:
with no keyword, synonym, fuzzy or bigram match anywhere, every
eligible template still scores priority * 0.1, so the code selects the
riddles template (first registered among the priority-2 templates)
rather than the questions fallback the claim and the spec promise. -/
theorem select_no_match_returns_riddles :
    (select_template_autonomous default_templates "zzzqq flibber" no_match_features).map
      PromptTemplate.name = some "riddles" ∧
    (select_template_autonomous default_templates "zzzqq flibber" no_match_features).map
      PromptTemplate.name ≠ some "questions" := by
  have h : (select_template_autonomous default_templates "zzzqq flibber"
      no_match_features).map PromptTemplate.name = some "riddles" := by
    with_unfolding_all decide
  exact ⟨h, by rw [h]; decide⟩

/-- C8: template selection is deterministic — two select calls with
identical user text, identical feature maps and identical registry
contents return the same template; the embedded selection is a pure
function consuming no random or hidden state. -/
theorem select_template_autonomous_deterministic
    (reg1 reg2 : List PromptTemplate) (t1 t2 : String) (f1 f2 : Features)
    (hreg : reg1 = reg2) (ht : t1 = t2) (hf : f1 = f2) :
    select_template_autonomous reg1 t1 f1 = select_template_autonomous reg2 t2 f2 := by
  rw [hreg, ht, hf]

/-- Witness for the determinism theorem at a concrete input. -/
theorem select_template_autonomous_deterministic_witness :
    select_template_autonomous default_templates "hello" { webcam := false, keypad := false }
      = select_template_autonomous default_templates "hello" { webcam := false, keypad := false } :=
  select_template_autonomous_deterministic default_templates default_templates
    "hello" "hello" _ _ rfl rfl rfl

/-- C2 counterexample: with the default three attempts, a backend whose
generate endpoint returns 404 twice and then succeeds (session start
always succeeding) makes the client issue two automatic start calls and
finish successfully, instead of raising a hard failure after the
second 404 as the claim states. -/
theorem generate_response_two_restarts :
    generate_response (fun n => if n < 2 then HttpResp.notFound else HttpResp.ok)
      (fun _ => HttpResp.ok) 3
      = (GenOutcome.success, { g := 3, s := 2 }) := by
  rfl

/-- Splitting the 404 count at the last request index. -/
theorem count_not_found_succ (genO : Nat → HttpResp) (n : Nat) :
    count_not_found genO (n + 1) =
      count_not_found genO n + (if genO n == HttpResp.notFound then 1 else 0) := by
  unfold count_not_found
  rw [List.range_succ, List.filter_append]
  by_cases h : genO n == HttpResp.notFound <;> simp [h]

/-- Invariant of the generate_response attempt loop when every start
request succeeds: the start-request counter advances by exactly the
number of 404 responses the generate attempts received, and the number
of generate requests is bounded by the remaining attempts. -/
theorem generate_response_loop_counts (genO startO : Nat → HttpResp) (retries : Nat)
    (hstart : ∀ n, startO n = HttpResp.ok) :
    ∀ (al g s : Nat), al ≤ retries →
      (generate_response_loop genO startO retries al ⟨g, s⟩).2.s + count_not_found genO g
        = s + count_not_found genO (generate_response_loop genO startO retries al ⟨g, s⟩).2.g
      ∧ (generate_response_loop genO startO retries al ⟨g, s⟩).2.g ≤ g + al
  | 0, g, s, _ => by simp [generate_response_loop]
  | al + 1, g, s, h => by
    rcases retries with _ | k
    · omega
    · cases hg : genO g with
      | ok =>
        have hc : count_not_found genO (g + 1) = count_not_found genO g := by
          rw [count_not_found_succ, hg]
          simp
        simp only [generate_response_loop, hg]
        rw [hc]
        exact ⟨rfl, by omega⟩
      | notFound =>
        have hs : start_session_loop startO (k + 1) s = (StartOutcome.ret true, s + 1) := by
          simp [start_session_loop, hstart s]
        have ih := generate_response_loop_counts genO startO (k + 1) hstart al
          (g + 1) (s + 1) (by omega)
        have hc : count_not_found genO (g + 1) = count_not_found genO g + 1 := by
          rw [count_not_found_succ, hg]
          simp
        rw [hc] at ih
        simp only [generate_response_loop, hg, hs]
        exact ⟨by omega, by omega⟩
      | serverErr =>
        have hc : count_not_found genO (g + 1) = count_not_found genO g := by
          rw [count_not_found_succ, hg]
          simp
        by_cases hal : 0 < al
        · have ih := generate_response_loop_counts genO startO (k + 1) hstart al
            (g + 1) s (by omega)
          rw [hc] at ih
          simp only [generate_response_loop, hg, if_pos hal]
          exact ⟨by omega, by omega⟩
        · have hal0 : al = 0 := by omega
          subst hal0
          simp only [generate_response_loop, hg, if_neg hal]
          rw [hc]
          exact ⟨rfl, by omega⟩

/-- C2 (amended): each 404 received by a generate attempt triggers
exactly one automatic start_session invocation followed by one retry of
the generate call, and this recovery repeats for every further 404
while bounded attempts remain (config max_retries, default 3) — it is
not limited to a single recovery. When every start request succeeds,
the number of start requests issued equals the number of 404 responses
received, the number of generate requests never exceeds max_retries,
and in the single-404 scenario the client issues exactly one start call
and exactly one retry, which succeeds. -/
theorem generate_response_recovery (genO startO : Nat → HttpResp) (retries : Nat)
    (hstart : ∀ n, startO n = HttpResp.ok) :
    ((generate_response genO startO retries).2.s
        = count_not_found genO (generate_response genO startO retries).2.g
      ∧ (generate_response genO startO retries).2.g ≤ retries)
    ∧ (2 ≤ retries → genO 0 = HttpResp.notFound → genO 1 = HttpResp.ok →
        generate_response genO startO retries = (GenOutcome.success, { g := 2, s := 1 })) := by
  constructor
  · have h := generate_response_loop_counts genO startO retries hstart retries 0 0 le_rfl
    unfold generate_response
    constructor
    · have h0 : count_not_found genO 0 = 0 := by simp [count_not_found]
      have h1 := h.1
      rw [h0] at h1
      omega
    · simpa using h.2
  · intro hr hg0 hg1
    rcases retries with _ | _ | k
    · omega
    · omega
    · have hs : start_session_loop startO (k + 1 + 1) 0 = (StartOutcome.ret true, 1) := by
        simp [start_session_loop, hstart 0]
      simp [generate_response, generate_response_loop, hg0, hg1, hs]

/-- Witness for the amended client-recovery theorem: one 404 followed
by a success, with starts succeeding, gives exactly one start call and
one successful retry. -/
theorem generate_response_recovery_witness :
    generate_response (fun n => if n = 0 then HttpResp.notFound else HttpResp.ok)
      (fun _ => HttpResp.ok) 3 = (GenOutcome.success, { g := 2, s := 1 }) :=
  (generate_response_recovery (fun n => if n = 0 then HttpResp.notFound else HttpResp.ok)
    (fun _ => HttpResp.ok) 3 (fun _ => rfl)).2 (by omega) (by decide) (by decide)

/-- C3 counterexample: at a failing inference call the engine returns
the degraded apology together with usage (0, 13, 13) — the completion
and total counts are the 13-word length of the apology text, not zero
as the claim states. -/
theorem llama_fallback_usage_not_all_zero :
    llama_generate {} (fun _ _ _ _ => none) "sys" [] none none none
      = (fallback_text, { prompt_tokens := 0, completion_tokens := 13, total_tokens := 13 }) ∧
    ({ prompt_tokens := 0, completion_tokens := 13, total_tokens := 13 } : Usage)
      ≠ { prompt_tokens := 0, completion_tokens := 0, total_tokens := 0 } := by
  refine ⟨?_, by decide⟩
  with_unfolding_all decide

/-- A left fold that adds a per-element contribution to the
accumulator equals the initial value plus the sum of the
contributions. -/
theorem foldl_step_add {α : Type} (step : ℚ → α → ℚ) (g : α → ℚ)
    (h : ∀ s x, step s x = s + g x) :
    ∀ (l : List α) (init : ℚ), l.foldl step init = init + (l.map g).sum
  | [], init => by simp
  | x :: xs, init => by
    rw [List.foldl_cons, h, foldl_step_add step g h xs]
    simp only [List.map_cons, List.sum_cons]
    ring

/-- The indexed bigram enumeration over range (n-1) coincides with the
zip of the word list and its tail. -/
theorem range_map_getD_eq_zip {β : Type} (F : String → String → β) :
    ∀ l : List String,
      (List.range (l.length - 1)).map (fun i => F (l.getD i "") (l.getD (i + 1) "")) =
        (l.zip l.tail).map (fun p => F p.1 p.2)
  | [] => by simp
  | [x] => by simp
  | x :: y :: rest => by
    have ih := range_map_getD_eq_zip F (y :: rest)
    simp only [List.length_cons, List.tail_cons, List.zip_cons_cons, List.map_cons,
      Nat.add_sub_cancel] at ih ⊢
    rw [List.range_succ_eq_map]
    simp only [List.map_cons, List.map_map, List.getD_cons_zero, List.getD_cons_succ]
    refine congrArg (List.cons _) ?_
    rw [← ih]
    rfl

theorem keyword_substr_loop_sum (ks : List String) (low : String) (c : ℚ) (init : ℚ) :
    keyword_substr_loop ks low c init
      = init + (ks.map (fun k => if py_in k.toLower low then c else 0)).sum := by
  refine foldl_step_add _ _ (fun s x => ?_) ks init
  by_cases h : py_in x.toLower low <;> simp [h]

theorem guarded_keyword_substr_sum (ks : List String) (low : String) (c : ℚ) (init : ℚ) :
    (if ks ≠ [] then keyword_substr_loop ks low c init else init)
      = init + (ks.map (fun k => if py_in k.toLower low then c else 0)).sum := by
  by_cases h : ks = []
  · simp [h]
  · rw [if_pos h, keyword_substr_loop_sum]

theorem fuzzy_loop_sum (ks : List String) (w : String) (c : ℚ) (init : ℚ) :
    fuzzy_loop ks w c init
      = init + (ks.map (fun k =>
          if 4/5 < calculate_similarity w k then calculate_similarity w k * c else 0)).sum := by
  refine foldl_step_add _ _ (fun s x => ?_) ks init
  by_cases h : (4:ℚ)/5 < calculate_similarity w x <;> simp [h]

theorem word_fuzzy_loop_sum (t : PromptTemplate) (s : ℚ) (w : String) :
    word_fuzzy_loop t s w
      = s + ((t.keywords.map (fun k =>
          if 4/5 < calculate_similarity w k then calculate_similarity w k * (1/2) else 0)).sum
        + (t.synonyms.map (fun k =>
          if 4/5 < calculate_similarity w k then calculate_similarity w k * (3/10) else 0)).sum) := by
  unfold word_fuzzy_loop
  by_cases h : t.synonyms = []
  · simp only [h, ne_eq, not_true_eq_false, if_false, List.map_nil, List.sum_nil, fuzzy_loop_sum]
    ring
  · rw [if_pos h, fuzzy_loop_sum, fuzzy_loop_sum]
    ring

theorem bigram_loop_sum (t : PromptTemplate) (ws : List String) (s : ℚ) (i : Nat) :
    bigram_loop t ws s i
      = s + ((t.keywords.map (fun k =>
            if py_in k.toLower (ws.getD i "" ++ " " ++ ws.getD (i + 1) "") then (1/2 : ℚ) else 0)).sum
        + (t.synonyms.map (fun k =>
            if py_in k.toLower (ws.getD i "" ++ " " ++ ws.getD (i + 1) "") then (3/10 : ℚ) else 0)).sum) := by
  unfold bigram_loop
  by_cases h : t.synonyms = []
  · simp only [h, ne_eq, not_true_eq_false, if_false, List.map_nil, List.sum_nil,
      keyword_substr_loop_sum]
    ring
  · rw [if_pos h, keyword_substr_loop_sum, keyword_substr_loop_sum]
    ring

/-- C7: the template match score equals the specification formula: the
sum of 2.0 per keyword substring hit on the case-folded raw input, 1.5
per synonym substring hit, similarity * 0.5 (resp. * 0.3) for every
word/keyword (resp. word/synonym) pair whose similarity exceeds 0.8,
the consecutive-bigram bonuses of 0.5 and 0.3 when the input has more
than two words, and priority * 0.1. -/
theorem score_template_match_eq_spec (t : PromptTemplate) (ui : String) :
    score_template_match t ui = spec_match_score t ui := by
  unfold score_template_match spec_match_score
  simp only []
  rw [keyword_substr_loop_sum t.keywords ui.toLower 2 0]
  rw [guarded_keyword_substr_sum t.synonyms ui.toLower (3/2)]
  rw [foldl_step_add (word_fuzzy_loop t) _ (word_fuzzy_loop_sum t)]
  by_cases hlen : 2 < (extract_words ui).length
  · rw [if_pos hlen, if_pos hlen]
    rw [foldl_step_add (bigram_loop t (extract_words ui)) _
      (bigram_loop_sum t (extract_words ui))]
    rw [range_map_getD_eq_zip (fun x y =>
      (t.keywords.map (fun k => if py_in k.toLower (x ++ " " ++ y) then (1/2 : ℚ) else 0)).sum
      + (t.synonyms.map (fun k => if py_in k.toLower (x ++ " " ++ y) then (3/10 : ℚ) else 0)).sum)
      (extract_words ui)]
    ring
  · rw [if_neg hlen, if_neg hlen]
    ring
theorem max_by_score_ge_seed : ∀ (xs : List (String × ℚ)) (x : String × ℚ),
    x.2 ≤ (max_by_score x xs).2
  | [], _ => le_refl _
  | y :: ys, x => by
    unfold max_by_score
    by_cases h : x.2 < y.2
    · rw [if_pos h]
      exact le_of_lt (lt_of_lt_of_le h (max_by_score_ge_seed ys y))
    · rw [if_neg h]
      exact max_by_score_ge_seed ys x

theorem max_by_score_split : ∀ (xs : List (String × ℚ)) (x : String × ℚ),
    ∃ pre post, x :: xs = pre ++ max_by_score x xs :: post
      ∧ (∀ y ∈ pre, y.2 < (max_by_score x xs).2)
      ∧ (∀ y ∈ post, y.2 ≤ (max_by_score x xs).2)
  | [], x => ⟨[], [], by simp [max_by_score], by simp, by simp⟩
  | y :: ys, x => by
    unfold max_by_score
    by_cases h : x.2 < y.2
    · rw [if_pos h]
      obtain ⟨pre, post, heq, hpre, hpost⟩ := max_by_score_split ys y
      refine ⟨x :: pre, post, by rw [List.cons_append, ← heq], ?_, hpost⟩
      intro z hz
      rcases List.mem_cons.mp hz with hz | hz
      · exact hz ▸ lt_of_lt_of_le h (max_by_score_ge_seed ys y)
      · exact hpre z hz
    · rw [if_neg h]
      obtain ⟨pre, post, heq, hpre, hpost⟩ := max_by_score_split ys x
      cases pre with
      | nil =>
        simp only [List.nil_append, List.cons.injEq] at heq
        obtain ⟨hx, hpost'⟩ := heq
        refine ⟨[], y :: ys, by rw [List.nil_append, ← hx], by simp, ?_⟩
        intro z hz
        rcases List.mem_cons.mp hz with hz | hz
        · rw [hz, ← hx]
          exact le_of_not_lt h
        · rw [hpost'] at hz
          exact hpost z hz
      | cons p ps =>
        simp only [List.cons_append, List.cons.injEq] at heq
        obtain ⟨hx, hys⟩ := heq
        have hxlt : x.2 < (max_by_score x ys).2 := hx ▸ hpre p (List.mem_cons_self p ps)
        refine ⟨x :: y :: ps, post, ?_, ?_, hpost⟩
        · simp only [List.cons_append]
          rw [← hys]
        · intro z hz
          rcases List.mem_cons.mp hz with hz | hz
          · exact hz ▸ hxlt
          rcases List.mem_cons.mp hz with hz | hz
          · exact hz ▸ lt_of_le_of_lt (le_of_not_lt h) hxlt
          · exact hpre z (List.mem_cons_of_mem _ hz)

theorem max_by_score_ub (xs : List (String × ℚ)) (x : String × ℚ) :
    ∀ y ∈ x :: xs, y.2 ≤ (max_by_score x xs).2 := by
  obtain ⟨pre, post, heq, hpre, hpost⟩ := max_by_score_split xs x
  intro y hy
  rw [heq] at hy
  rcases List.mem_append.mp hy with hy | hy
  · exact le_of_lt (hpre y hy)
  rcases List.mem_cons.mp hy with hy | hy
  · exact hy ▸ le_refl _
  · exact hpost y hy

theorem scores_eq_filter_map (reg : List PromptTemplate) (ui : String) (f : Features) :
    reg.filterMap (fun t =>
      if t.requires_webcam && !f.webcam then none
      else if t.requires_keypad && !f.keypad then none
      else some (t.name, score_template_match t ui))
    = (reg.filter (eligible f)).map (fun t => (t.name, score_template_match t ui)) := by
  induction reg with
  | nil => simp
  | cons t rest ih =>
    by_cases h1 : t.requires_webcam && !f.webcam
    · have he : eligible f t = false := by simp [eligible, h1]
      rw [@List.filterMap_cons_none _ _ (fun u =>
          if u.requires_webcam && !f.webcam then none
          else if u.requires_keypad && !f.keypad then none
          else some (u.name, score_template_match u ui)) t rest (by simp only []; rw [if_pos h1]),
        List.filter_cons_of_neg (by simp [he]), ih]
    · by_cases h2 : t.requires_keypad && !f.keypad
      · have he : eligible f t = false := by simp [eligible, h2]
        rw [@List.filterMap_cons_none _ _ (fun u =>
            if u.requires_webcam && !f.webcam then none
            else if u.requires_keypad && !f.keypad then none
            else some (u.name, score_template_match u ui)) t rest (by simp only []; rw [if_neg h1, if_pos h2]),
          List.filter_cons_of_neg (by simp [he]), ih]
      · have he : eligible f t = true := by
          simp only [eligible, Bool.and_eq_true, Bool.not_eq_true']
          constructor
          · simpa using h1
          · simpa using h2
        rw [@List.filterMap_cons_some _ _ (fun u =>
            if u.requires_webcam && !f.webcam then none
            else if u.requires_keypad && !f.keypad then none
            else some (u.name, score_template_match u ui)) t rest _ (by simp only []; rw [if_neg h1, if_neg h2]),
          List.filter_cons_of_pos he, List.map_cons, ih]

theorem find_name_of_mem : ∀ (l : List PromptTemplate) (t : PromptTemplate),
    t ∈ l → (l.map PromptTemplate.name).Nodup →
    l.find? (fun u => u.name == t.name) = some t
  | [], t, hmem, _ => absurd hmem (List.not_mem_nil t)
  | h :: rest, t, hmem, hnd => by
    rcases List.mem_cons.mp hmem with rfl | hmem'
    · simp [List.find?_cons]
    · rw [List.map_cons, List.nodup_cons] at hnd
      have hne : (h.name == t.name) = false := by
        rw [beq_eq_false_iff_ne]
        intro e
        exact hnd.1 (e ▸ List.mem_map_of_mem PromptTemplate.name hmem')
      rw [List.find?_cons, hne]
      exact find_name_of_mem rest t hmem' hnd.2

theorem map_eq_append_cons {α β : Type} (g : α → β) :
    ∀ (l : List α) (p : List β) (b : β) (q : List β),
    l.map g = p ++ b :: q →
    ∃ lp x lq, l = lp ++ x :: lq ∧ lp.map g = p ∧ g x = b ∧ lq.map g = q
  | [], p, b, q, h => by
    exfalso
    have := congrArg List.length h
    simp at this
    omega
  | a :: l, p, b, q, h => by
    cases p with
    | nil =>
      simp only [List.map_cons, List.nil_append, List.cons.injEq] at h
      exact ⟨[], a, l, by simp, by simp, h.1, h.2⟩
    | cons pb pr =>
      simp only [List.map_cons, List.cons_append, List.cons.injEq] at h
      obtain ⟨lp, x, lq, hl, hp, hb, hq⟩ := map_eq_append_cons g l pr b q h.2
      exact ⟨a :: lp, x, lq, by rw [hl]; simp, by simp [h.1, hp], hb, hq⟩

theorem foldl_ge_init {α : Type} (step : ℚ → α → ℚ) (h : ∀ s x, s ≤ step s x) :
    ∀ (l : List α) (init : ℚ), init ≤ l.foldl step init
  | [], init => le_refl _
  | x :: xs, init => le_trans (h init x) (foldl_ge_init step h xs (step init x))

theorem calculate_similarity_nonneg (a b : String) : 0 ≤ calculate_similarity a b := by
  unfold calculate_similarity difflib.ratio
  simp only []
  by_cases h : a.toLower.data.length + b.toLower.data.length = 0
  · rw [if_pos h]
    norm_num
  · rw [if_neg h]
    apply div_nonneg
    · positivity
    · positivity

theorem keyword_substr_loop_ge (ks : List String) (low : String) (c : ℚ) (hc : 0 ≤ c)
    (init : ℚ) : init ≤ keyword_substr_loop ks low c init := by
  refine foldl_ge_init _ (fun s x => ?_) ks init
  by_cases h : py_in x.toLower low <;> simp [h] <;> linarith

theorem fuzzy_loop_ge (ks : List String) (w : String) (c : ℚ) (hc : 0 ≤ c) (init : ℚ) :
    init ≤ fuzzy_loop ks w c init := by
  refine foldl_ge_init _ (fun s x => ?_) ks init
  by_cases h : (4:ℚ)/5 < calculate_similarity w x
  · simp only [fuzzy_loop, h, if_pos]
    have := calculate_similarity_nonneg w x
    nlinarith
  · simp [h]

theorem word_fuzzy_loop_ge (t : PromptTemplate) (s : ℚ) (w : String) :
    s ≤ word_fuzzy_loop t s w := by
  unfold word_fuzzy_loop
  by_cases h : t.synonyms = []
  · simpa [h] using fuzzy_loop_ge t.keywords w (1/2) (by norm_num) s
  · rw [if_pos h]
    exact le_trans (fuzzy_loop_ge t.keywords w (1/2) (by norm_num) s)
      (fuzzy_loop_ge t.synonyms w (3/10) (by norm_num) _)

theorem bigram_loop_ge (t : PromptTemplate) (ws : List String) (s : ℚ) (i : Nat) :
    s ≤ bigram_loop t ws s i := by
  unfold bigram_loop
  by_cases h : t.synonyms = []
  · simpa [h] using keyword_substr_loop_ge t.keywords _ (1/2) (by norm_num) s
  · rw [if_pos h]
    exact le_trans (keyword_substr_loop_ge t.keywords _ (1/2) (by norm_num) s)
      (keyword_substr_loop_ge t.synonyms _ (3/10) (by norm_num) _)

theorem score_ge_priority (t : PromptTemplate) (ui : String) :
    (t.priority : ℚ) * (1/10) ≤ score_template_match t ui := by
  unfold score_template_match
  simp only []
  have h1 : (0:ℚ) ≤ keyword_substr_loop t.keywords ui.toLower 2 0 :=
    keyword_substr_loop_ge _ _ _ (by norm_num) 0
  have h2 : (0:ℚ) ≤ (if t.synonyms ≠ [] then
      keyword_substr_loop t.synonyms ui.toLower (3/2)
        (keyword_substr_loop t.keywords ui.toLower 2 0)
    else keyword_substr_loop t.keywords ui.toLower 2 0) := by
    by_cases h : t.synonyms = []
    · simpa [h] using h1
    · rw [if_pos h]
      exact le_trans h1 (keyword_substr_loop_ge _ _ _ (by norm_num) _)
  have h3 : (0:ℚ) ≤ (extract_words ui).foldl (word_fuzzy_loop t)
      (if t.synonyms ≠ [] then
        keyword_substr_loop t.synonyms ui.toLower (3/2)
          (keyword_substr_loop t.keywords ui.toLower 2 0)
      else keyword_substr_loop t.keywords ui.toLower 2 0) :=
    le_trans h2 (foldl_ge_init _ (word_fuzzy_loop_ge t) _ _)
  by_cases hlen : 2 < (extract_words ui).length
  · rw [if_pos hlen]
    refine le_trans ?_ (foldl_ge_init _ (bigram_loop_ge t (extract_words ui)) _ _)
    linarith
  · rw [if_neg hlen]
    linarith
/-- C6: select never returns a template whose webcam or keypad
requirement is unsatisfied, among the eligible templates it returns one
with the maximal score, and any eligible template preceding it in
registration order scores strictly less (so on ties the first
registered template wins). -/
theorem select_respects_gates_max_and_order (ui : String) (f : Features) :
    ∃ t, select_template_autonomous default_templates ui f = some t
      ∧ eligible f t = true
      ∧ (∀ u ∈ default_templates, eligible f u = true →
          score_template_match u ui ≤ score_template_match t ui)
      ∧ ∃ pre post, default_templates.filter (eligible f) = pre ++ t :: post
          ∧ ∀ u ∈ pre, score_template_match u ui < score_template_match t ui := by
  have hconv : eligible f conversation_template = true := rfl
  have hfil : default_templates.filter (eligible f)
      = conversation_template :: ([questions_template, riddles_template, compliments_template,
          advice_template, stories_template, fashion_template].filter (eligible f)) := by
    unfold default_templates
    exact List.filter_cons_of_pos hconv
  have hscore : (1 : ℚ)/10 ≤ score_template_match conversation_template ui := by
    have h := score_ge_priority conversation_template ui
    rw [show (conversation_template.priority : ℚ) = 1 from rfl] at h
    linarith
  unfold select_template_autonomous
  simp only []
  rw [scores_eq_filter_map, hfil, List.map_cons]
  simp only []
  obtain ⟨pre, post, heq, hpre, hpost⟩ :=
    max_by_score_split
      (([questions_template, riddles_template, compliments_template, advice_template,
          stories_template, fashion_template].filter (eligible f)).map
        (fun t => (t.name, score_template_match t ui)))
      (conversation_template.name, score_template_match conversation_template ui)
  have hpos : 0 < (max_by_score
      (conversation_template.name, score_template_match conversation_template ui)
      (([questions_template, riddles_template, compliments_template, advice_template,
          stories_template, fashion_template].filter (eligible f)).map
        (fun t => (t.name, score_template_match t ui)))).2 :=
    lt_of_lt_of_le (by linarith)
      (max_by_score_ge_seed _
        (conversation_template.name, score_template_match conversation_template ui))
  rw [if_pos hpos]
  have heq' : List.map (fun t => (t.name, score_template_match t ui))
      (conversation_template :: [questions_template, riddles_template, compliments_template,
        advice_template, stories_template, fashion_template].filter (eligible f))
      = pre ++ (max_by_score
          (conversation_template.name, score_template_match conversation_template ui)
          (([questions_template, riddles_template, compliments_template, advice_template,
              stories_template, fashion_template].filter (eligible f)).map
            (fun t => (t.name, score_template_match t ui)))) :: post := by
    rw [List.map_cons]
    exact heq
  obtain ⟨lp, x, lq, hl, hp, hgb, hq⟩ :=
    map_eq_append_cons (fun t => (t.name, score_template_match t ui)) _ _ _ _ heq'
  have hxmem : x ∈ default_templates.filter (eligible f) := by
    rw [hfil, hl]
    exact List.mem_append_right lp (List.mem_cons_self x lq)
  have hx_elig : eligible f x = true := List.of_mem_filter hxmem
  have hx_mem_reg : x ∈ default_templates := List.mem_of_mem_filter hxmem
  have hnames : (default_templates.map PromptTemplate.name).Nodup := by
    with_unfolding_all decide
  have hfind : default_templates.find? (fun u => u.name == x.name) = some x :=
    find_name_of_mem default_templates x hx_mem_reg hnames
  have hb1 : (max_by_score
      (conversation_template.name, score_template_match conversation_template ui)
      (([questions_template, riddles_template, compliments_template, advice_template,
          stories_template, fashion_template].filter (eligible f)).map
        (fun t => (t.name, score_template_match t ui)))).1 = x.name := by
    rw [← hgb]
  have hb2 : (max_by_score
      (conversation_template.name, score_template_match conversation_template ui)
      (([questions_template, riddles_template, compliments_template, advice_template,
          stories_template, fashion_template].filter (eligible f)).map
        (fun t => (t.name, score_template_match t ui)))).2 = score_template_match x ui := by
    rw [← hgb]
  refine ⟨x, ?_, hx_elig, ?_, ?_⟩
  · rw [hb1]
    exact hfind
  · intro u hu hue
    have humem : (u.name, score_template_match u ui)
        ∈ (conversation_template.name, score_template_match conversation_template ui)
          :: ([questions_template, riddles_template, compliments_template, advice_template,
              stories_template, fashion_template].filter (eligible f)).map
            (fun t => (t.name, score_template_match t ui)) := by
      have hm : u ∈ default_templates.filter (eligible f) := List.mem_filter.mpr ⟨hu, hue⟩
      rw [hfil] at hm
      have hm2 := List.mem_map_of_mem (fun t => (t.name, score_template_match t ui)) hm
      rw [List.map_cons] at hm2
      exact hm2
    have hle := max_by_score_ub _ _ _ humem
    rw [hb2] at hle
    exact hle
  · refine ⟨lp, lq, hl, ?_⟩
    intro u hu
    have hmem : (fun t => (t.name, score_template_match t ui)) u ∈ pre := by
      rw [← hp]
      exact List.mem_map_of_mem _ hu
    have hlt := hpre _ hmem
    rw [hb2] at hlt
    exact hlt

/-- The default registry always selects some template (the generate
endpoint cannot reach its internal lookup-failure branch). -/
theorem select_default_isSome (ui : String) (f : Features) :
    (select_template_autonomous default_templates ui f).isSome = true := by
  obtain ⟨t, h, -, -, -⟩ := select_respects_gates_max_and_order ui f
  rw [h]
  rfl

/-- C3 (amended): a generation-engine failure is not propagated — the
engine call returns the degraded apology text with usage
prompt_tokens = 0 and completion_tokens = total_tokens = 13 (the
whitespace word count of the apology), not all-zero usage; and the
generate endpoint itself surfaces only 400 (validation) and 404
(session-not-found) errors. -/
theorem llama_generate_engine_failure (d : LlamaDefaults)
    (infer : String → Nat → ℚ → ℚ → Option (String × Usage))
    (sp : String) (msgs : List ChatMessage)
    (mt : Option Nat) (temp tp : Option ℚ)
    (h : infer (build_prompt sp msgs) (py_or_nat mt d.max_tokens)
      (py_or_rat temp d.temperature) (py_or_rat tp d.top_p) = none) :
    llama_generate d infer sp msgs mt temp tp = (fallback_text, fallback_usage)
    ∧ fallback_usage = { prompt_tokens := 0, completion_tokens := 13, total_tokens := 13 }
    ∧ ∀ (cfg : BackendConfig) (st : SessionStore) (now : ℚ)
        (engine : String → List ChatMessage → Nat → ℚ → ℚ → String × Usage)
        (choose : List String → String) (req : GenerateRequest) (e : Nat),
        (api_generate cfg st now engine choose req).1 = Except.error e → e = 400 ∨ e = 404 := by
  refine ⟨?_, by with_unfolding_all decide, ?_⟩
  · unfold llama_generate
    simp only []
    rw [h]
  · intro cfg st now engine choose req e herr
    unfold api_generate at herr
    simp only [] at herr
    cases hu : python_uuid req.session_id with
    | none =>
      rw [hu] at herr
      simp at herr
      omega
    | some uuid =>
      rw [hu] at herr
      simp only [] at herr
      cases hget : store_get st now uuid with
      | none =>
        rw [hget] at herr
        simp at herr
        omega
      | some session =>
        rw [hget] at herr
        simp only [] at herr
        have hsel := select_default_isSome req.user_text { webcam := false, keypad := false }
        cases hs : select_template_autonomous default_templates req.user_text
            { webcam := false, keypad := false } with
        | none =>
          rw [hs] at hsel
          simp at hsel
        | some tpl =>
          rw [hs] at herr
          simp only [] at herr
          simp at herr

/-- Witness for the amended engine-failure theorem at a concrete
failing inference call. -/
theorem llama_generate_engine_failure_witness :
    llama_generate {} (fun _ _ _ _ => none) "hello" [] none none none
      = (fallback_text, fallback_usage) :=
  (llama_generate_engine_failure {} (fun _ _ _ _ => none) "hello" [] none none none rfl).1
theorem hex_digit_val_lt (c : Char) (v : Nat) (h : hex_digit_val c = some v) : v < 16 := by
  unfold hex_digit_val at h
  by_cases h1 : 48 ≤ c.toNat && c.toNat ≤ 57
  · rw [if_pos h1] at h
    simp only [Bool.and_eq_true, decide_eq_true_eq] at h1
    injection h with h
    omega
  · rw [if_neg h1] at h
    by_cases h2 : 97 ≤ c.toNat && c.toNat ≤ 102
    · rw [if_pos h2] at h
      simp only [Bool.and_eq_true, decide_eq_true_eq] at h2
      injection h with h
      omega
    · rw [if_neg h2] at h
      by_cases h3 : 65 ≤ c.toNat && c.toNat ≤ 70
      · rw [if_pos h3] at h
        simp only [Bool.and_eq_true, decide_eq_true_eq] at h3
        injection h with h
        omega
      · rw [if_neg h3] at h
        cases h

theorem hex_ne (c k : Char) (h : (hex_digit_val c).isSome = true)
    (hk : hex_digit_val k = none) : (c == k) = false := by
  rw [beq_eq_false_iff_ne]
  intro e
  rw [e, hk] at h
  cases h

theorem hex_ne_prop (c k : Char) (h : (hex_digit_val c).isSome = true)
    (hk : hex_digit_val k = none) : c ≠ k := by
  intro e
  rw [e, hk] at h
  cases h

theorem starts_with_chars_subset : ∀ (p l : List Char),
    starts_with_chars p l = true → ∀ c ∈ p, c ∈ l
  | [], _, _, c, hc => absurd hc (List.not_mem_nil c)
  | _ :: _, [], h, _, _ => by cases h
  | a :: as, b :: bs, h, c, hc => by
    rw [starts_with_chars, Bool.and_eq_true, beq_iff_eq] at h
    rcases List.mem_cons.mp hc with rfl | hc
    · rw [h.1]
      exact List.mem_cons_self b bs
    · exact List.mem_cons_of_mem b (starts_with_chars_subset as bs h.2 c hc)

theorem replace_tok_eq_self (p : Char) (ps : List Char) (x : Char) (hx : x ∈ p :: ps) :
    ∀ l : List Char, x ∉ l → replace_tok p ps l = l
  | [], _ => by rw [replace_tok]
  | c :: rest, hnl => by
    rw [replace_tok]
    have hsw : starts_with_chars (p :: ps) (c :: rest) = false := by
      by_contra hc
      rw [Bool.not_eq_false] at hc
      exact hnl (starts_with_chars_subset (p :: ps) (c :: rest) hc x hx)
    rw [hsw]
    simp only [Bool.false_eq_true, if_false]
    rw [replace_tok_eq_self p ps x hx rest (fun hr => hnl (List.mem_cons_of_mem c hr))]
termination_by l => l.length
decreasing_by
  simp

theorem dropWhile_eq_self_of_all {p : Char → Bool} :
    ∀ l : List Char, (∀ c ∈ l, p c = false) → l.dropWhile p = l
  | [], _ => rfl
  | c :: rest, h => by
    rw [List.dropWhile_cons, h c (List.mem_cons_self c rest)]
    simp

theorem strip_braces_eq_self (l : List Char)
    (h : ∀ c ∈ l, (c == '\x7b' || c == '\x7d') = false) : strip_braces l = l := by
  unfold strip_braces
  rw [dropWhile_eq_self_of_all l h,
    dropWhile_eq_self_of_all l.reverse (fun c hc => h c (List.mem_reverse.mp hc)),
    List.reverse_reverse]

theorem hex_not_space (c : Char) (h : (hex_digit_val c).isSome = true) :
    py_is_space c = false := by
  unfold py_is_space
  rw [hex_ne c ' ' h (by decide), hex_ne c '\t' h (by decide), hex_ne c '\n' h (by decide),
    hex_ne c '\r' h (by decide), hex_ne c '\x0b' h (by decide), hex_ne c '\x0c' h (by decide)]
  rfl

theorem hex_digits_go_all_hex : ∀ (l : List Char) (acc : Nat),
    (∀ c ∈ l, (hex_digit_val c).isSome = true) →
    ∃ n, hex_digits_go acc l = some n ∧ n < (acc + 1) * 16 ^ l.length
  | [], acc, _ => ⟨acc, rfl, by simp⟩
  | c :: rest, acc, h => by
    have hc : (hex_digit_val c).isSome = true := h c (List.mem_cons_self c rest)
    obtain ⟨v, hv⟩ := Option.isSome_iff_exists.mp hc
    have hv16 : v < 16 := hex_digit_val_lt c v hv
    have hus : (c == '_') = false := hex_ne c '_' hc (by decide)
    obtain ⟨n, hn, hb⟩ := hex_digits_go_all_hex rest (acc * 16 + v)
      (fun d hd => h d (List.mem_cons_of_mem c hd))
    refine ⟨n, ?_, ?_⟩
    · conv_lhs => rw [hex_digits_go.eq_def]
      simp only [hus, Bool.false_eq_true, if_false, hv]
      exact hn
    · calc n < (acc * 16 + v + 1) * 16 ^ rest.length := hb
        _ ≤ ((acc + 1) * 16) * 16 ^ rest.length := by
            have : acc * 16 + v + 1 ≤ (acc + 1) * 16 := by omega
            exact Nat.mul_le_mul_right _ this
        _ = (acc + 1) * 16 ^ (c :: rest).length := by
            rw [List.length_cons, pow_succ]
            ring

theorem hex_chain_all_hex (l : List Char) (hne : l ≠ [])
    (h : ∀ c ∈ l, (hex_digit_val c).isSome = true) :
    ∃ n, hex_chain l = some n ∧ n < 16 ^ l.length := by
  cases l with
  | nil => exact absurd rfl hne
  | cons c rest =>
    have hc : (hex_digit_val c).isSome = true := h c (List.mem_cons_self c rest)
    obtain ⟨v, hv⟩ := Option.isSome_iff_exists.mp hc
    have hv16 : v < 16 := hex_digit_val_lt c v hv
    obtain ⟨n, hn, hb⟩ := hex_digits_go_all_hex rest v
      (fun d hd => h d (List.mem_cons_of_mem c hd))
    refine ⟨n, ?_, ?_⟩
    · rw [hex_chain, hv]
      exact hn
    · calc n < (v + 1) * 16 ^ rest.length := hb
        _ ≤ 16 * 16 ^ rest.length := by
            exact Nat.mul_le_mul_right _ (by omega)
        _ = 16 ^ (c :: rest).length := by
            rw [List.length_cons, pow_succ]
            ring

theorem py_int16_all_hex (l : List Char) (hne : l ≠ [])
    (h : ∀ c ∈ l, (hex_digit_val c).isSome = true) :
    ∃ n : Nat, py_int16 l = some (n : Int) ∧ n < 16 ^ l.length := by
  unfold py_int16
  simp only []
  have hd1 : l.dropWhile py_is_space = l :=
    dropWhile_eq_self_of_all l (fun c hc => hex_not_space c (h c hc))
  have hd2 : l.reverse.dropWhile py_is_space = l.reverse :=
    dropWhile_eq_self_of_all l.reverse (fun c hc => hex_not_space c (h c (List.mem_reverse.mp hc)))
  rw [hd1, hd2, List.reverse_reverse]
  cases l with
  | nil => exact absurd rfl hne
  | cons c rest =>
    have hc : (hex_digit_val c).isSome = true := h c (List.mem_cons_self c rest)
    have hplus : (c == '+') = false := hex_ne c '+' hc (by decide)
    have hminus : (c == '-') = false := hex_ne c '-' hc (by decide)
    simp only [hplus, hminus, Bool.false_eq_true, if_false]
    have hx1 : ((c :: rest).getD 1 ' ' == 'x') = false := by
      cases rest with
      | nil =>
        rw [List.getD_cons_succ, List.getD_nil]
        decide
      | cons c2 r2 =>
        rw [List.getD_cons_succ, List.getD_cons_zero]
        exact hex_ne c2 'x' (h c2 (List.mem_cons_of_mem c (List.mem_cons_self c2 r2))) (by decide)
    have hx2 : ((c :: rest).getD 1 ' ' == 'X') = false := by
      cases rest with
      | nil =>
        rw [List.getD_cons_succ, List.getD_nil]
        decide
      | cons c2 r2 =>
        rw [List.getD_cons_succ, List.getD_cons_zero]
        exact hex_ne c2 'X' (h c2 (List.mem_cons_of_mem c (List.mem_cons_self c2 r2))) (by decide)
    simp only [hx1, hx2, Bool.or_self, Bool.and_false, Bool.false_and, Bool.false_eq_true,
      if_false]
    obtain ⟨n, hn, hb⟩ := hex_chain_all_hex (c :: rest) (by simp) h
    refine ⟨n, ?_, hb⟩
    rw [hn]
    simp
theorem python_uuid_canonical_isSome (s : String) (h : IsCanonicalUUID4 s) :
    (python_uuid s).isSome = true := by
  obtain ⟨g1, g2, g3, g4, g5, hs, hl1, hl2, hl3, hl4, hl5, hh1, hh2, hh3, hh4, hh5, -, -⟩ := h
  have hmem : ∀ c ∈ g1 ++ '-' :: (g2 ++ '-' :: (g3 ++ '-' :: (g4 ++ '-' :: g5))),
      (hex_digit_val c).isSome = true ∨ c = '-' := by
    intro c hc
    simp only [List.mem_append, List.mem_cons] at hc
    rcases hc with hc | hc | hc | hc | hc | hc | hc | hc | hc
    · exact Or.inl (hh1 c hc)
    · exact Or.inr hc
    · exact Or.inl (hh2 c hc)
    · exact Or.inr hc
    · exact Or.inl (hh3 c hc)
    · exact Or.inr hc
    · exact Or.inl (hh4 c hc)
    · exact Or.inr hc
    · exact Or.inl (hh5 c hc)
  unfold python_uuid
  simp only []
  rw [hs]
  rw [replace_tok_eq_self 'u' ['r', 'n', ':'] ':' (by decide) _ (fun hc => by
    rcases hmem ':' hc with hhex | hdash
    · exact absurd hhex (by decide)
    · exact absurd hdash (by decide))]
  rw [replace_tok_eq_self 'u' ['u', 'i', 'd', ':'] ':' (by decide) _ (fun hc => by
    rcases hmem ':' hc with hhex | hdash
    · exact absurd hhex (by decide)
    · exact absurd hdash (by decide))]
  rw [strip_braces_eq_self _ (fun c hc => by
    rcases hmem c hc with hhex | hdash
    · rw [hex_ne c '\x7b' hhex (by decide), hex_ne c '\x7d' hhex (by decide)]
      rfl
    · rw [hdash]
      decide)]
  have hfil : (g1 ++ '-' :: (g2 ++ '-' :: (g3 ++ '-' :: (g4 ++ '-' :: g5)))).filter
      (fun c => c != '-') = g1 ++ g2 ++ g3 ++ g4 ++ g5 := by
    have hf1 : g1.filter (fun c => c != '-') = g1 :=
      List.filter_eq_self.mpr (fun c hc => by
        simp only [bne_iff_ne, ne_eq, decide_eq_true_eq]
        exact hex_ne_prop c '-' (hh1 c hc) (by decide))
    have hf2 : g2.filter (fun c => c != '-') = g2 :=
      List.filter_eq_self.mpr (fun c hc => by
        simp only [bne_iff_ne, ne_eq, decide_eq_true_eq]
        exact hex_ne_prop c '-' (hh2 c hc) (by decide))
    have hf3 : g3.filter (fun c => c != '-') = g3 :=
      List.filter_eq_self.mpr (fun c hc => by
        simp only [bne_iff_ne, ne_eq, decide_eq_true_eq]
        exact hex_ne_prop c '-' (hh3 c hc) (by decide))
    have hf4 : g4.filter (fun c => c != '-') = g4 :=
      List.filter_eq_self.mpr (fun c hc => by
        simp only [bne_iff_ne, ne_eq, decide_eq_true_eq]
        exact hex_ne_prop c '-' (hh4 c hc) (by decide))
    have hf5 : g5.filter (fun c => c != '-') = g5 :=
      List.filter_eq_self.mpr (fun c hc => by
        simp only [bne_iff_ne, ne_eq, decide_eq_true_eq]
        exact hex_ne_prop c '-' (hh5 c hc) (by decide))
    simp [List.filter_append, List.filter_cons, hf1, hf2, hf3, hf4, hf5]
  rw [hfil]
  have hlen : (g1 ++ g2 ++ g3 ++ g4 ++ g5).length = 32 := by
    simp [List.length_append, hl1, hl2, hl3, hl4, hl5]
  rw [if_pos hlen]
  have hhex : ∀ c ∈ g1 ++ g2 ++ g3 ++ g4 ++ g5, (hex_digit_val c).isSome = true := by
    intro c hc
    simp only [List.mem_append] at hc
    rcases hc with (((hc | hc) | hc) | hc) | hc
    · exact hh1 c hc
    · exact hh2 c hc
    · exact hh3 c hc
    · exact hh4 c hc
    · exact hh5 c hc
  obtain ⟨n, hn, hb⟩ := py_int16_all_hex (g1 ++ g2 ++ g3 ++ g4 ++ g5)
    (by intro he; rw [he] at hlen; cases hlen) hhex
  rw [hn]
  simp only []
  have hrange : (0 : Int) ≤ (n : Int) ∧ (n : Int) < 2 ^ 128 := by
    constructor
    · exact Int.ofNat_nonneg n
    · rw [hlen] at hb
      have : (16 : Nat) ^ 32 = 2 ^ 128 := by norm_num
      rw [this] at hb
      exact_mod_cast hb
  rw [if_pos hrange]
  rfl

theorem canonical_v4_version_char (s : String) (h : IsCanonicalUUID4 s) :
    s.data.getD 14 ' ' = '4' := by
  obtain ⟨g1, g2, g3, g4, g5, hs, hl1, hl2, hl3, hl4, hl5, -, -, -, -, -, hver, -⟩ := h
  rw [hs]
  rw [List.getD_append_right g1 _ ' ' 14 (by omega)]
  rw [hl1]
  show ('-' :: (g2 ++ '-' :: (g3 ++ '-' :: (g4 ++ '-' :: g5)))).getD 6 ' ' = '4'
  rw [show (6 : Nat) = 5 + 1 from rfl, List.getD_cons_succ]
  rw [List.getD_append_right g2 _ ' ' 5 (by omega)]
  rw [hl2]
  show ('-' :: (g3 ++ '-' :: (g4 ++ '-' :: g5))).getD 1 ' ' = '4'
  rw [show (1 : Nat) = 0 + 1 from rfl, List.getD_cons_succ]
  cases g3 with
  | nil => cases hl3
  | cons c r =>
    rw [List.cons_append, List.getD_cons_zero]
    rw [List.headD_cons] at hver
    exact hver
/-- C9 counterexample: the endpoint accepts the version-1 UUID string
11111111-1111-1111-8111-111111111111 and creates a session (created =
true) even though the string is not a valid UUIDv4 — the validation
only checks uuid.UUID parsing, which ignores the version. -/
theorem session_start_accepts_version1_uuid :
    session_start {} [] 0
        { session_id := "11111111-1111-1111-8111-111111111111", booth_id := "booth-01",
          personality := "trickster", mode := "chat" }
      = (Except.ok (SessionStartResponse.mk 0x11111111111111118111111111111111 true 600),
         [(0x11111111111111118111111111111111,
           Session.mk 0x11111111111111118111111111111111 "booth-01" "trickster" "chat"
             [] 0 0 600)])
    ∧ ¬ IsCanonicalUUID4 "11111111-1111-1111-8111-111111111111" := by
  constructor
  · with_unfolding_all rfl
  · intro h
    have h14 := canonical_v4_version_char _ h
    rw [show ("11111111-1111-1111-8111-111111111111".data.getD 14 ' ') = '1' by
      with_unfolding_all decide] at h14
    exact absurd h14 (by decide)

/-- C9 (amended): a session_id string that uuid.UUID rejects yields 400
with the store unchanged, and every canonical UUIDv4 string passes the
validation; but the validation accepts any parseable UUID string, not
only version-4 ones. -/
theorem session_start_uuid_validation (cfg : BackendConfig) (st : SessionStore) (now : ℚ)
    (req : SessionStartRequest) (hbad : python_uuid req.session_id = none) :
    session_start cfg st now req = (Except.error 400, st)
    ∧ ∀ s : String, IsCanonicalUUID4 s → (python_uuid s).isSome = true := by
  constructor
  · unfold session_start
    rw [hbad]
  · exact python_uuid_canonical_isSome

/-- Witness for the amended validation theorem: a malformed id is
rejected with the store untouched, and a concrete canonical UUIDv4
parses. -/
theorem session_start_uuid_validation_witness :
    session_start {} [] 0
        { session_id := "not-a-uuid", booth_id := "b", personality := "p", mode := "m" }
      = (Except.error 400, [])
    ∧ (python_uuid "11111111-1111-4111-8111-111111111111").isSome = true := by
  have h := session_start_uuid_validation {} [] 0
    { session_id := "not-a-uuid", booth_id := "b", personality := "p", mode := "m" }
    (by with_unfolding_all decide)
  refine ⟨h.1, h.2 _ ?_⟩
  refine ⟨"11111111".data, "1111".data, "4111".data, "8111".data, "111111111111".data,
    ?_, ?_, ?_, ?_, ?_, ?_, ?_, ?_, ?_, ?_, ?_, ?_, ?_⟩
  · with_unfolding_all decide
  · decide
  · decide
  · decide
  · decide
  · decide
  · decide
  · decide
  · decide
  · decide
  · decide
  · decide
  · exact Or.inl (by decide)

/-- C4: starting a session twice with the same id is idempotent — the
first call creates (created = true), the second within the TTL returns
the stored record unchanged (created = false), both report the same
session id and the same expires_in_seconds, and the second call leaves
the store exactly as the first left it. -/
theorem session_start_idempotent (cfg : BackendConfig) (st : SessionStore)
    (now1 now2 : ℚ) (req : SessionStartRequest) (uuid : Nat)
    (hparse : python_uuid req.session_id = some uuid)
    (habsent : store_lookup st uuid = none)
    (hwithin : now2 - now1 ≤ cfg.ttl_seconds) :
    ∃ r1 st1 r2 st2,
      session_start cfg st now1 req = (Except.ok r1, st1)
      ∧ session_start cfg st1 now2 req = (Except.ok r2, st2)
      ∧ r1.created = true ∧ r2.created = false
      ∧ r1.session_id = uuid ∧ r2.session_id = uuid
      ∧ r2.expires_in_seconds = r1.expires_in_seconds
      ∧ st2 = st1
      ∧ store_lookup st1 uuid = some
          { session_id := uuid, booth_id := req.booth_id, personality := req.personality,
            mode := req.mode, turns := [], created_at := now1, updated_at := now1,
            ttl_seconds := cfg.ttl_seconds } := by
  have hfind : st.find? (fun e => e.1 == uuid) = none := by
    unfold store_lookup at habsent
    cases hf : st.find? (fun e => e.1 == uuid) with
    | none => rfl
    | some e =>
      rw [hf] at habsent
      cases habsent
  have hlook1 : store_lookup (st ++ [(uuid,
      Session.mk uuid req.booth_id req.personality req.mode [] now1 now1
        cfg.ttl_seconds)]) uuid = some
      (Session.mk uuid req.booth_id req.personality req.mode [] now1 now1
        cfg.ttl_seconds) := by
    unfold store_lookup
    rw [List.find?_append, hfind]
    simp
  have hexp : is_expired now2
      (Session.mk uuid req.booth_id req.personality req.mode [] now1 now1
        cfg.ttl_seconds) = false := by
    simp only [is_expired, decide_eq_false_iff_not, not_lt]
    exact hwithin
  refine ⟨SessionStartResponse.mk uuid true cfg.ttl_seconds,
    st ++ [(uuid, Session.mk uuid req.booth_id req.personality req.mode [] now1 now1
      cfg.ttl_seconds)],
    SessionStartResponse.mk uuid false cfg.ttl_seconds,
    st ++ [(uuid, Session.mk uuid req.booth_id req.personality req.mode [] now1 now1
      cfg.ttl_seconds)],
    ?_, ?_, rfl, rfl, rfl, rfl, rfl, rfl, hlook1⟩
  · unfold session_start
    rw [hparse]
    simp only []
    unfold create_if_absent
    rw [habsent]
  · unfold session_start
    rw [hparse]
    simp only []
    unfold create_if_absent
    rw [hlook1]
    simp only []
    rw [hexp]
    simp only [Bool.false_eq_true, if_false]

/-- Witness for the idempotent-creation theorem at a concrete valid
UUIDv4 and an empty store. -/
theorem session_start_idempotent_witness :
    ∃ r1 st1 r2 st2,
      session_start {} [] 0
          { session_id := "11111111-1111-4111-8111-111111111111", booth_id := "booth-01",
            personality := "trickster", mode := "chat" }
        = (Except.ok r1, st1)
      ∧ session_start {} st1 0
          { session_id := "11111111-1111-4111-8111-111111111111", booth_id := "booth-01",
            personality := "trickster", mode := "chat" }
        = (Except.ok r2, st2)
      ∧ r1.created = true ∧ r2.created = false
      ∧ r1.session_id = 0x11111111111141118111111111111111
      ∧ r2.session_id = 0x11111111111141118111111111111111
      ∧ r2.expires_in_seconds = r1.expires_in_seconds
      ∧ st2 = st1
      ∧ store_lookup st1 0x11111111111141118111111111111111 = some
          { session_id := 0x11111111111141118111111111111111, booth_id := "booth-01",
            personality := "trickster", mode := "chat", turns := [], created_at := 0,
            updated_at := 0, ttl_seconds := ({} : BackendConfig).ttl_seconds } :=
  session_start_idempotent {} [] 0 0
    { session_id := "11111111-1111-4111-8111-111111111111", booth_id := "booth-01",
      personality := "trickster", mode := "chat" }
    0x11111111111141118111111111111111
    (by with_unfolding_all rfl) rfl (by with_unfolding_all decide)
theorem take_last_nil {α : Type} (n : Nat) : take_last n ([] : List α) = [] := by
  unfold take_last
  simp

theorem take_last_length {α : Type} (n : Nat) (l : List α) :
    (take_last n l).length = min n l.length := by
  unfold take_last
  rw [List.length_reverse, List.length_take, List.length_reverse]

theorem take_last_append {α : Type} (n : Nat) (xs ys : List α) :
    take_last n (take_last n xs ++ ys) = take_last n (xs ++ ys) := by
  unfold take_last
  rw [List.reverse_append, List.reverse_reverse, List.reverse_append]
  rw [List.take_append_eq_append_take, List.take_append_eq_append_take]
  rw [List.take_take]
  rw [Nat.min_eq_left (Nat.sub_le n ys.reverse.length)]

theorem store_lookup_map (st : SessionStore) (id : Nat) (f : Session → Session) :
    store_lookup (st.map (fun e => if e.1 == id then (e.1, f e.2) else e)) id
      = (store_lookup st id).map f := by
  unfold store_lookup
  induction st with
  | nil => rfl
  | cons e rest ih =>
    rw [List.map_cons, List.find?_cons, List.find?_cons]
    by_cases he : (e.1 == id)
    · rw [if_pos he]
      simp [he]
    · rw [if_neg he]
      simp only [he, Bool.false_eq_true, if_false]
      exact ih

theorem store_get_of_lookup (st : SessionStore) (now : ℚ) (id : Nat) (s : Session)
    (hl : store_lookup st id = some s) (he : is_expired now s = false) :
    store_get st now id = some s := by
  unfold store_get
  rw [hl]
  simp only [he, Bool.false_eq_true, if_false]

theorem append_turn_present (st : SessionStore) (now : ℚ) (id : Nat) (t : Turn) (s : Session)
    (hget : store_get st now id = some s) :
    append_turn st now id t
      = st.map (fun e => if e.1 == id then (e.1, with_turn now t e.2) else e) := by
  unfold append_turn
  rw [hget]
theorem run_generates_turns (cfg : BackendConfig)
    (engine : String → List ChatMessage → Nat → ℚ → ℚ → String × Usage)
    (choose : List String → String) (sid : String) (now : ℚ) (uuid : Nat)
    (hparse : python_uuid sid = some uuid) :
    ∀ (texts : List String) (st : SessionStore) (s : Session) (acc : List Turn),
      store_lookup st uuid = some s →
      is_expired now s = false →
      s.turns = take_last cfg.history_max_turns acc →
      ∃ sfin,
        store_lookup (run_generates cfg engine choose sid now texts st).1 uuid = some sfin
        ∧ sfin.turns = take_last cfg.history_max_turns
            (acc ++ (run_generates cfg engine choose sid now texts st).2)
        ∧ (run_generates cfg engine choose sid now texts st).2.length = 2 * texts.length
  | [], st, s, acc, hl, he, ht => by
    refine ⟨s, ?_, ?_, ?_⟩
    · simpa [run_generates] using hl
    · simpa [run_generates] using ht
    · simp [run_generates]
  | u :: rest, st, s, acc, hl, he, ht => by
    have hget : store_get st now uuid = some s := store_get_of_lookup st now uuid s hl he
    obtain ⟨tpl, hsel⟩ := Option.isSome_iff_exists.mp
      (select_default_isSome u { webcam := false, keypad := false })
    have key : ∀ t1 t2 : Turn,
        store_lookup (truncate_in_store (append_turn (append_turn st now uuid t1) now uuid t2)
            uuid cfg.history_max_turns) uuid
          = some (truncate_history (with_turn now t2 (with_turn now t1 s))
              cfg.history_max_turns) := by
      intro t1 t2
      rw [append_turn_present st now uuid t1 s hget]
      have hl1 : store_lookup (st.map (fun e => if e.1 == uuid then
          (e.1, with_turn now t1 e.2) else e)) uuid = some (with_turn now t1 s) := by
        rw [store_lookup_map, hl]
        rfl
      have hget1 : store_get (st.map (fun e => if e.1 == uuid then
          (e.1, with_turn now t1 e.2) else e)) now uuid = some (with_turn now t1 s) :=
        store_get_of_lookup _ now uuid _ hl1 (by simpa [is_expired, with_turn] using he)
      rw [append_turn_present _ now uuid t2 _ hget1]
      unfold truncate_in_store
      have htr := store_lookup_map
        ((st.map (fun e => if e.1 == uuid then (e.1, with_turn now t1 e.2) else e)).map
          (fun e => if e.1 == uuid then (e.1, with_turn now t2 e.2) else e)) uuid
        (fun x => truncate_history x cfg.history_max_turns)
      simp only [] at htr
      rw [htr, store_lookup_map, store_lookup_map, hl]
      rfl
    simp only [run_generates]
    unfold api_generate
    rw [hparse]
    simp only []
    rw [hget]
    simp only []
    rw [hsel]
    simp only []
    generalize (engine (if tpl.name == "questions" then
        question_injection tpl.system_prompt (choose curated_questions)
      else tpl.system_prompt)
      (s.turns.map (fun t => ChatMessage.mk t.role t.content)
        ++ [ChatMessage.mk "user" u])
      (if tpl.max_tokens ≠ 0 then tpl.max_tokens else cfg.llm_max_tokens)
      (if tpl.temperature ≠ 0 then tpl.temperature else cfg.llm_temperature)
      cfg.llm_top_p).1 = X
    obtain ⟨sfin, hA, hB, hC⟩ := run_generates_turns cfg engine choose sid now uuid hparse
      rest _ _ (acc ++ [Turn.mk "user" u now, Turn.mk "assistant" X now])
      (key (Turn.mk "user" u now) (Turn.mk "assistant" X now))
      (by simpa [is_expired, truncate_history, with_turn] using he)
      (by
        unfold truncate_history with_turn
        simp only []
        rw [List.append_assoc, ht, take_last_append]
        rfl)
    refine ⟨sfin, hA, ?_, ?_⟩
    · rw [hB]
      simp [List.append_assoc]
    · simp only [List.length_cons]
      rw [hC]
      omega
/-- C5: across any sequence of generate calls against a live session
that starts with no turns, the stored session always holds the most
recent history_max_turns turns: the run appends two turns per call, and
once 2k exceeds H the stored turn list is exactly the last H appended
turns in their original order, so its length is exactly H. -/
theorem generate_truncation_invariant (cfg : BackendConfig)
    (engine : String → List ChatMessage → Nat → ℚ → ℚ → String × Usage)
    (choose : List String → String) (sid : String) (now : ℚ) (uuid : Nat) (s0 : Session)
    (texts : List String) (st : SessionStore)
    (hparse : python_uuid sid = some uuid)
    (hlookup : store_lookup st uuid = some s0)
    (hexp : is_expired now s0 = false)
    (hempty : s0.turns = [])
    (hlen : cfg.history_max_turns < 2 * texts.length) :
    ∃ sfin,
      store_lookup (run_generates cfg engine choose sid now texts st).1 uuid = some sfin
      ∧ (run_generates cfg engine choose sid now texts st).2.length = 2 * texts.length
      ∧ sfin.turns = take_last cfg.history_max_turns
          (run_generates cfg engine choose sid now texts st).2
      ∧ sfin.turns.length = cfg.history_max_turns := by
  obtain ⟨sfin, hA, hB, hC⟩ := run_generates_turns cfg engine choose sid now uuid hparse
    texts st s0 [] hlookup hexp (by rw [hempty, take_last_nil])
  have hB' : sfin.turns = take_last cfg.history_max_turns
      (run_generates cfg engine choose sid now texts st).2 := by
    rw [hB]
    simp
  refine ⟨sfin, hA, hC, hB', ?_⟩
  rw [hB', take_last_length, hC]
  omega

/-- Witness for the truncation-invariant theorem: a fresh session, the
default configuration (H = 8) and five generate calls (10 turns). -/
theorem generate_truncation_invariant_witness :
    ∃ sfin,
      store_lookup (run_generates {} (fun _ _ _ _ _ => ("ok", Usage.mk 1 2 3))
          (fun l => l.getD 0 "") "11111111-1111-4111-8111-111111111111" 0
          ["", "", "", "", ""]
          [(0x11111111111141118111111111111111,
            Session.mk 0x11111111111141118111111111111111 "booth-01" "trickster" "chat"
              [] 0 0 600)]).1 0x11111111111141118111111111111111 = some sfin
      ∧ (run_generates {} (fun _ _ _ _ _ => ("ok", Usage.mk 1 2 3))
          (fun l => l.getD 0 "") "11111111-1111-4111-8111-111111111111" 0
          ["", "", "", "", ""]
          [(0x11111111111141118111111111111111,
            Session.mk 0x11111111111141118111111111111111 "booth-01" "trickster" "chat"
              [] 0 0 600)]).2.length = 2 * 5
      ∧ sfin.turns = take_last ({} : BackendConfig).history_max_turns
          (run_generates {} (fun _ _ _ _ _ => ("ok", Usage.mk 1 2 3))
            (fun l => l.getD 0 "") "11111111-1111-4111-8111-111111111111" 0
            ["", "", "", "", ""]
            [(0x11111111111141118111111111111111,
              Session.mk 0x11111111111141118111111111111111 "booth-01" "trickster" "chat"
                [] 0 0 600)]).2
      ∧ sfin.turns.length = ({} : BackendConfig).history_max_turns :=
  generate_truncation_invariant {} (fun _ _ _ _ _ => ("ok", Usage.mk 1 2 3))
    (fun l => l.getD 0 "") "11111111-1111-4111-8111-111111111111" 0
    0x11111111111141118111111111111111
    (Session.mk 0x11111111111141118111111111111111 "booth-01" "trickster" "chat" [] 0 0 600)
    ["", "", "", "", ""]
    [(0x11111111111141118111111111111111,
      Session.mk 0x11111111111141118111111111111111 "booth-01" "trickster" "chat" [] 0 0 600)]
    (by with_unfolding_all rfl) rfl (by with_unfolding_all decide) rfl
    (by with_unfolding_all decide)

/-- C10: the optional personality and mode overrides of a generate
request never change the selected template, the system prompt, the
reply text, the usage, the selected_mode or the resulting store — two
requests identical except for the overrides produce identical results
apart from the personality string echoed in the response. -/
theorem generate_overrides_only_echo_personality (cfg : BackendConfig) (st : SessionStore)
    (now : ℚ) (engine : String → List ChatMessage → Nat → ℚ → ℚ → String × Usage)
    (choose : List String → String) (req1 req2 : GenerateRequest)
    (hsid : req1.session_id = req2.session_id) (htext : req1.user_text = req2.user_text) :
    ((api_generate cfg st now engine choose req1).1.map
        (fun r => (r.text, r.usage, r.selected_mode))
      = (api_generate cfg st now engine choose req2).1.map
        (fun r => (r.text, r.usage, r.selected_mode)))
    ∧ (api_generate cfg st now engine choose req1).2
        = (api_generate cfg st now engine choose req2).2
    ∧ select_template_autonomous default_templates req1.user_text
        { webcam := false, keypad := false }
      = select_template_autonomous default_templates req2.user_text
        { webcam := false, keypad := false } := by
  obtain ⟨sid1, text1, p1, m1⟩ := req1
  obtain ⟨sid2, text2, p2, m2⟩ := req2
  simp only [] at hsid htext
  subst hsid htext
  refine ⟨?_, ?_, rfl⟩ <;>
  · unfold api_generate
    simp only []
    cases python_uuid sid1 with
    | none => rfl
    | some uuid =>
      simp only []
      cases store_get st now uuid with
      | none => rfl
      | some session =>
        simp only []
        cases select_template_autonomous default_templates text1
            { webcam := false, keypad := false } with
        | none => rfl
        | some tpl => rfl

/-- Witness for the override-independence theorem: two concrete
requests differing only in their personality and mode overrides. -/
theorem generate_overrides_only_echo_personality_witness :
    ((api_generate {} [] 0 (fun _ _ _ _ _ => ("ok", Usage.mk 1 2 3)) (fun l => l.getD 0 "")
        { session_id := "11111111-1111-4111-8111-111111111111", user_text := "hi",
          personality := some "sage", mode := some "riddle" }).1.map
        (fun r => (r.text, r.usage, r.selected_mode))
      = (api_generate {} [] 0 (fun _ _ _ _ _ => ("ok", Usage.mk 1 2 3)) (fun l => l.getD 0 "")
        { session_id := "11111111-1111-4111-8111-111111111111", user_text := "hi",
          personality := none, mode := none }).1.map
        (fun r => (r.text, r.usage, r.selected_mode)))
    ∧ (api_generate {} [] 0 (fun _ _ _ _ _ => ("ok", Usage.mk 1 2 3)) (fun l => l.getD 0 "")
        { session_id := "11111111-1111-4111-8111-111111111111", user_text := "hi",
          personality := some "sage", mode := some "riddle" }).2
      = (api_generate {} [] 0 (fun _ _ _ _ _ => ("ok", Usage.mk 1 2 3)) (fun l => l.getD 0 "")
        { session_id := "11111111-1111-4111-8111-111111111111", user_text := "hi",
          personality := none, mode := none }).2
    ∧ select_template_autonomous default_templates "hi" { webcam := false, keypad := false }
      = select_template_autonomous default_templates "hi" { webcam := false, keypad := false } :=
  generate_overrides_only_echo_personality {} [] 0
    (fun _ _ _ _ _ => ("ok", Usage.mk 1 2 3)) (fun l => l.getD 0 "")
    { session_id := "11111111-1111-4111-8111-111111111111", user_text := "hi",
      personality := some "sage", mode := some "riddle" }
    { session_id := "11111111-1111-4111-8111-111111111111", user_text := "hi",
      personality := none, mode := none }
    rfl rfl
